import Mathlib

/-!
Verification of the deterministic ad-composition engine
(`src/composition/` of the repository): layout geometry, product
placement, text wrapping, contrast logic, and the composition pipeline.

Python semantics are embedded shallowly:
* Python `int` is `ℤ` (arbitrary precision), pixel counts are `ℕ`;
* Python `float` arithmetic is modelled exactly over `ℚ` (the repository
  only multiplies small decimal constants by integer pixel counts, where
  IEEE-754 double rounding agrees with the exact rational value on every
  quantity the claims mention);
* `int(x)` on a float is truncation toward zero (`pyTrunc`);
* `a // b` on ints is floor division (`Int.fdiv`);
* external collaborators (file decoding, network fetches already
  resolved to bytes, the rembg matting model, the LANCZOS / Gaussian
  resampling kernels, font metrics) are fields of an `Ops` record: each
  is an arbitrary but fixed pure function, which is exactly the
  "assets already resolved, no network variance" reading of the spec.
-/

namespace Sartor

/-- Python `int(x)` applied to a float/rational: truncation toward zero. -/
def pyTrunc (q : ℚ) : ℤ :=
  if 0 ≤ q then ⌊q⌋ else ⌈q⌉

/-- Python integer floor division `a // b`. -/
def pyFloorDiv (a b : ℤ) : ℤ := Int.fdiv a b

/-- Whether `pat` matches at the head of the list. -/
def leadMatch : List Char → List Char → Bool
  | [], _ => true
  | _ :: _, [] => false
  | c :: cs, d :: ds => c = d && leadMatch cs ds

/-- Whether `needle` occurs contiguously anywhere in the list. -/
def infixMatch (needle : List Char) : List Char → Bool
  | [] => needle.isEmpty
  | c :: cs => leadMatch needle (c :: cs) || infixMatch needle cs

/-- Python substring test `needle in hay`. -/
def pyContains (hay needle : String) : Bool :=
  infixMatch needle.toList hay.toList

/-- Python `s.startswith(pre)`. -/
def pyStartsWith (s pre : String) : Bool :=
  leadMatch pre.toList s.toList

/-- Python `str.lower()` (ASCII range, which covers every directive the
repository compares against). -/
def pyLower (s : String) : String :=
  ⟨s.toList.map Char.toLower⟩

/-- Scanner of Python `str.replace(pat, rep)`: leftmost,
non-overlapping.  Fuel-based; fuel = input length suffices because each
step consumes at least one character (the repository only replaces
single-character patterns). -/
def replaceFuel (pat rep : List Char) : ℕ → List Char → List Char
  | 0, l => l
  | _ + 1, [] => []
  | fuel + 1, c :: cs =>
    if leadMatch pat (c :: cs) && !pat.isEmpty then
      rep ++ replaceFuel pat rep fuel (List.drop (pat.length - 1) cs)
    else c :: replaceFuel pat rep fuel cs

/-- Python `s.replace(pat, rep)` (for the non-empty patterns the
repository uses). -/
def pyReplace (s pat rep : String) : String :=
  ⟨replaceFuel pat.toList rep.toList s.toList.length s.toList⟩

/-- Python truthiness of a string: non-empty. -/
def pyTruthyStr (s : String) : Bool := s ≠ ""

/-- Python truthiness of an optional string (`None` and `""` are falsy). -/
def pyTruthyOptStr : Option String → Bool
  | none => false
  | some s => pyTruthyStr s

/-!
## `src/composition/templates/layout_specs.py`
-/

/-- `LayoutZone`: a rectangular zone as fractions of the canvas
(`layout_specs.py`, lines 11–46). -/
structure LayoutZone where
  x_start : ℚ
  x_end : ℚ
  y_start : ℚ
  y_end : ℚ
deriving DecidableEq, Repr

namespace LayoutZone

/-- `LayoutZone.get_bounds`: convert the fractional zone to pixel
coordinates `(x1, y1, x2, y2)`; `int(...)` truncates toward zero. -/
def get_bounds (z : LayoutZone) (width height : ℤ) : ℤ × ℤ × ℤ × ℤ :=
  ( pyTrunc ((width : ℚ) * z.x_start)
  , pyTrunc ((height : ℚ) * z.y_start)
  , pyTrunc ((width : ℚ) * z.x_end)
  , pyTrunc ((height : ℚ) * z.y_end) )

/-- `LayoutZone.get_center`. -/
def get_center (z : LayoutZone) (width height : ℤ) : ℤ × ℤ :=
  let b := z.get_bounds width height
  (pyFloorDiv (b.1 + b.2.2.1) 2, pyFloorDiv (b.2.1 + b.2.2.2) 2)

/-- `LayoutZone.get_size`. -/
def get_size (z : LayoutZone) (width height : ℤ) : ℤ × ℤ :=
  let b := z.get_bounds width height
  (b.2.2.1 - b.1, b.2.2.2 - b.2.1)

end LayoutZone

/-- `LayoutSpec` (`layout_specs.py`, lines 49–69).  The `*_font_ratio`
fields of the source keep their role under the names `*FontFrac`. -/
structure LayoutSpec where
  name : String
  description : String
  product_zone : LayoutZone
  headline_zone : LayoutZone
  body_zone : LayoutZone
  cta_zone : LayoutZone
  logo_zone : LayoutZone
  secondary_logo_zone : Option LayoutZone := none
  headlineFontFrac : ℚ := 45/1000
  bodyFontFrac : ℚ := 25/1000
  ctaFontFrac : ℚ := 28/1000
deriving DecidableEq, Repr

/-!
### `difflib.SequenceMatcher` (CPython), as used by `get_layout_spec`

`get_close_matches(archetype, names, n=1, cutoff=0.4)` filters the
candidate names by `ratio() >= cutoff` and returns the largest
`(ratio, name)` pair.  (`real_quick_ratio`/`quick_ratio` are upper
bounds of `ratio`, so the pre-filters never change the final set.)
All strings involved are far shorter than 200 characters, so CPython's
autojunk heuristic marks nothing as junk; with no junk the two
post-extension loops of `find_longest_match` can never fire (a firing
extension would exhibit a strictly longer common block, contradicting
maximality of the DP result), so they are omitted here.
-/

/-- CPython's `b2j[c]`: the positions of character `c` in `b`, in
increasing order. -/
def b2jPositions : List Char → Char → ℕ → List ℕ
  | [], _, _ => []
  | d :: ds, c, j =>
    if d = c then j :: b2jPositions ds c (j + 1)
    else b2jPositions ds c (j + 1)

/-- CPython's `j2len` dict is represented as a base-`B` digit string
packed into one `ℕ` (`B = len(b) + 1` strictly exceeds every possible
run length, so digits never carry): digit `j` is `j2len.get(j, 0)`. -/
def rowGet (B row j : ℕ) : ℕ := row / B ^ j % B

/-- Row `i` of `find_longest_match`: walk `b2j[a[i]]` in increasing
order (positions outside the `[blo, bhi)` window are skipped, as the
`continue`/`break` guards do), building `newj2len` and updating the
best block exactly when `k > bestsize`. -/
def flmStep (B blo bhi i : ℕ) (positions : List ℕ)
    (st : ℕ × (ℕ × ℕ × ℕ)) : ℕ × (ℕ × ℕ × ℕ) :=
  positions.foldl
    (fun st2 j =>
      if blo ≤ j ∧ j < bhi then
        let k := (if j = 0 then 0 else rowGet B st.1 (j - 1)) + 1
        ( st2.1 + k * B ^ j
        , if st2.2.2.2 < k then (i + 1 - k, j + 1 - k, k) else st2.2 )
      else st2)
    (0, st.2)

/-- `SequenceMatcher.find_longest_match` on the window
`a[alo:ahi]`, `b[blo:bhi]`: returns `(besti, bestj, bestsize)`,
first-longest as in CPython. -/
def findLongestMatch (a b : List Char) (alo ahi blo bhi : ℕ) : ℕ × ℕ × ℕ :=
  let B := b.length + 1
  ((List.range' alo (ahi - alo)).foldl
    (fun st i => flmStep B blo bhi i (b2jPositions b (a.getD i default) 0) st)
    (0, (alo, blo, 0))).2

/-- Total size of all matching blocks (the `sum(size for _, _, size in
get_matching_blocks())` that `ratio()` consumes; adjacent-block merging
in `get_matching_blocks` does not change this sum).  Fuel-based
recursion; each recursive window is strictly smaller, so the fuel used
at the top level is always sufficient. -/
def matchedTotalAux (a b : List Char) : ℕ → ℕ → ℕ → ℕ → ℕ → ℕ
  | 0, _, _, _, _ => 0
  | fuel + 1, alo, ahi, blo, bhi =>
    let m := findLongestMatch a b alo ahi blo bhi
    if m.2.2 = 0 then 0
    else
      matchedTotalAux a b fuel alo m.1 blo m.2.1 + m.2.2 +
        matchedTotalAux a b fuel (m.1 + m.2.2) ahi (m.2.1 + m.2.2) bhi

/-- Total matched characters between `a` and `b`. -/
def matchedTotal (a b : List Char) : ℕ :=
  matchedTotalAux a b (a.length + b.length + 1) 0 a.length 0 b.length

/-- `SequenceMatcher.ratio()`: `2.0 * M / T`, kept exact over `ℚ`. -/
def similarity (a b : List Char) : ℚ :=
  2 * (matchedTotal a b : ℚ) / ((a.length : ℚ) + (b.length : ℚ))

/-- Python string `<` (code-point lexicographic), used by the
`(score, name)` tuple comparison inside `heapq.nlargest`. -/
def pyStrLt : List Char → List Char → Bool
  | [], [] => false
  | [], _ :: _ => true
  | _ :: _, [] => false
  | c :: cs, d :: ds =>
    if c.val < d.val then true
    else if d.val < c.val then false
    else pyStrLt cs ds

/-- `difflib.get_close_matches(word, possibilities, n=1, cutoff=0.4)`
as called by `get_layout_spec`: keep candidates with `ratio ≥ cutoff`
(each scored as `SequenceMatcher(a=candidate, b=word)`), return the
largest `(ratio, candidate)` tuple, if any.  The exact rational
comparisons `2M/T ≥ 2/5` and `2M₁/T₁ < 2M₂/T₂` are carried out
cross-multiplied over `ℕ` (every candidate name here is non-empty, so
each total `T` is positive and cross-multiplication is equivalent). -/
def getCloseMatches1 (word : String) (possibilities : List String) :
    Option String :=
  let scored := possibilities.filterMap fun x =>
    let m := matchedTotal x.toList word.toList
    let t := x.toList.length + word.toList.length
    -- ratio ≥ 0.4  ⟺  2M/T ≥ 2/5  ⟺  T ≤ 5M
    if t ≤ 5 * m then some (m, t, x) else none
  let best :=
    scored.foldl
      (fun (best : Option (ℕ × ℕ × String)) p =>
        match best, p with
        | none, _ => some p
        | some (qm, qt, qs), (pm, pt, ps) =>
          -- (2qm/qt, qs) < (2pm/pt, ps) in Python tuple order
          if qm * pt < pm * qt ∨ (qm * pt = pm * qt ∧ pyStrLt qs.toList ps.toList)
          then some (pm, pt, ps)
          else some (qm, qt, qs))
      none
  best.map fun p => p.2.2

/-!
### The built-in layout archetypes (`layout_specs.py`, lines 76–139)
-/

/-- "Hero Product with Stat Overlay". -/
def heroSpec : LayoutSpec :=
  { name := "Hero Product with Stat Overlay"
    description := "Product centered and prominent, with key stat/headline overlaid at bottom"
    product_zone := ⟨0.15, 0.85, 0.10, 0.70⟩
    headline_zone := ⟨0.05, 0.65, 0.68, 0.82⟩
    body_zone := ⟨0.05, 0.65, 0.82, 0.92⟩
    cta_zone := ⟨0.05, 0.40, 0.88, 0.98⟩
    logo_zone := ⟨0.75, 0.95, 0.03, 0.12⟩
    headlineFontFrac := 0.05 }

/-- "Problem/Solution Split". -/
def splitSpec : LayoutSpec :=
  { name := "Problem/Solution Split"
    description := "Vertical split: text on left, product on right"
    product_zone := ⟨0.50, 0.95, 0.10, 0.85⟩
    headline_zone := ⟨0.05, 0.48, 0.15, 0.35⟩
    body_zone := ⟨0.05, 0.48, 0.38, 0.65⟩
    cta_zone := ⟨0.05, 0.35, 0.70, 0.85⟩
    logo_zone := ⟨0.05, 0.25, 0.03, 0.12⟩
    headlineFontFrac := 0.042 }

/-- "Lifestyle Context Shot". -/
def lifestyleSpec : LayoutSpec :=
  { name := "Lifestyle Context Shot"
    description := "Emphasis on lifestyle context, product positioned subtly"
    product_zone := ⟨0.55, 0.95, 0.50, 0.95⟩
    headline_zone := ⟨0.05, 0.70, 0.08, 0.25⟩
    body_zone := ⟨0.05, 0.55, 0.28, 0.45⟩
    cta_zone := ⟨0.05, 0.35, 0.50, 0.62⟩
    logo_zone := ⟨0.75, 0.95, 0.03, 0.12⟩
    headlineFontFrac := 0.048 }

/-- "Minimal Product Focus". -/
def minimalSpec : LayoutSpec :=
  { name := "Minimal Product Focus"
    description := "Clean, minimal design with centered product and text below"
    product_zone := ⟨0.20, 0.80, 0.12, 0.62⟩
    headline_zone := ⟨0.10, 0.90, 0.65, 0.78⟩
    body_zone := ⟨0.15, 0.85, 0.78, 0.88⟩
    cta_zone := ⟨0.30, 0.70, 0.88, 0.96⟩
    logo_zone := ⟨0.40, 0.60, 0.02, 0.10⟩
    headlineFontFrac := 0.04 }

/-- `LAYOUT_ARCHETYPES`, in the source's (Python dict insertion) order. -/
def LAYOUT_ARCHETYPES : List (String × LayoutSpec) :=
  [ ("Hero Product with Stat Overlay", heroSpec)
  , ("Problem/Solution Split", splitSpec)
  , ("Lifestyle Context Shot", lifestyleSpec)
  , ("Minimal Product Focus", minimalSpec) ]

/-- `DEFAULT_LAYOUT`. -/
def DEFAULT_LAYOUT : String := "Minimal Product Focus"

/-- `get_layout_spec(archetype)`: exact lookup, else fuzzy match with
cutoff 0.4, else the default.  The `getD minimalSpec` defaults are
unreachable: the fuzzy match only ever returns a key of the table, and
`DEFAULT_LAYOUT` is a key of the table. -/
def get_layout_spec (archetype : String) : LayoutSpec :=
  match List.lookup archetype LAYOUT_ARCHETYPES with
  | some spec => spec
  | none =>
    match getCloseMatches1 archetype (LAYOUT_ARCHETYPES.map Prod.fst) with
    | some m => (List.lookup m LAYOUT_ARCHETYPES).getD minimalSpec
    | none => (List.lookup DEFAULT_LAYOUT LAYOUT_ARCHETYPES).getD minimalSpec

/-- `list_archetypes()`. -/
def list_archetypes : List String := LAYOUT_ARCHETYPES.map Prod.fst

/-!
## Images and external collaborators

A PIL image is a finite raster with a mode string; `pix x y` is the
RGBA value at column `x`, row `y` (coordinates outside the raster are
irrelevant to every claim and left unconstrained).
-/

/-- An RGBA pixel `(r, g, b, a)`.  Single-band ("L") images store the
band value in the first component. -/
abbrev Pixel := ℕ × ℕ × ℕ × ℕ

/-- Shallow PIL image. -/
structure Img where
  width : ℕ
  height : ℕ
  mode : String
  pix : ℕ → ℕ → Pixel

/-- External collaborators and resampling kernels, each an arbitrary but
fixed pure function.  Holding an `Ops` value fixed is exactly the
"assets already resolved, no network variance" hypothesis: a field
application is the (deterministic) result the external world returns
for that request. -/
structure Ops where
  /-- `Image.open(path)` on a resolved local file. -/
  openImage : String → Img
  /-- `httpx` fetch + decode of a resolved remote asset. -/
  fetchImage : String → Img
  /-- the `rembg.remove` matting network. -/
  rembg : Img → Img
  /-- pixel content after `img.convert(mode)`. -/
  convertPix : String → Img → ℕ → ℕ → Pixel
  /-- pixel content after `img.resize((w, h), LANCZOS)`. -/
  resamplePix : Img → ℕ → ℕ → ℕ → ℕ → Pixel
  /-- pixel content after `img.filter(GaussianBlur(radius))`. -/
  blurPix : ℕ → Img → ℕ → ℕ → Pixel
  /-- one output pixel of `dst.paste(src, box, mask)`: destination
  pixel, source pixel, mask band value. -/
  blendMaskPix : Pixel → Pixel → ℕ → Pixel
  /-- pixel content of `Image.blend(im1, im2, alpha)`. -/
  imageBlendPix : Img → Img → ℚ → ℕ → ℕ → Pixel
  /-- the font file the `load_font` fallback chain resolves a weight
  to (depends on which font files exist on the host). -/
  fontFile : String → String
  /-- `font.getbbox(text)`. -/
  getbbox : String × ℤ → String → ℤ × ℤ × ℤ × ℤ
  /-- pixel content after `draw.text(pos, text, font, fill)`. -/
  textPix : Img → ℤ × ℤ → String → String × ℤ → String → ℕ → ℕ → Pixel
  /-- pixel content after `draw.rounded_rectangle(box, radius, fill)`. -/
  rrectPix : Img → ℤ × ℤ × ℤ × ℤ → ℤ → String → ℕ → ℕ → Pixel
  /-- whether loading/decoding this logo source raises (the `except`
  path of `_place_logo`). -/
  logoFails : String → Bool

/-- A loaded font: resolved font file plus pixel size. -/
abbrev Font := String × ℤ

/-- `load_font(weight, size)`: the fallback chain itself only decides
which font file backs the result, which the environment reports. -/
def load_font (ops : Ops) (weight : String) (size : ℤ) : Font :=
  (ops.fontFile weight, size)

namespace Img

/-- `Image.new(mode, size, color)`. -/
def new (mode : String) (w h : ℕ) (color : Pixel) : Img :=
  ⟨w, h, mode, fun _ _ => color⟩

/-- `img.copy()` (a fresh object with identical content — identical as
a value). -/
def copy (img : Img) : Img := img

/-- `img.convert(mode)`. -/
def convert (ops : Ops) (img : Img) (mode : String) : Img :=
  ⟨img.width, img.height, mode, ops.convertPix mode img⟩

/-- `img.resize((w, h), LANCZOS)`. -/
def resize (ops : Ops) (img : Img) (w h : ℕ) : Img :=
  ⟨w, h, img.mode, ops.resamplePix img w h⟩

/-- `img.filter(GaussianBlur(radius))`. -/
def blur (ops : Ops) (img : Img) (radius : ℕ) : Img :=
  ⟨img.width, img.height, img.mode, ops.blurPix radius img⟩

/-- `img.crop((x1, y1, x2, y2))`. -/
def crop (img : Img) (box : ℤ × ℤ × ℤ × ℤ) : Img :=
  ⟨(box.2.2.1 - box.1).toNat, (box.2.2.2 - box.2.1).toNat, img.mode,
    fun x y => img.pix (x + box.1.toNat) (y + box.2.1.toNat)⟩

/-- `img.transpose(FLIP_TOP_BOTTOM)`. -/
def flipTB (img : Img) : Img :=
  ⟨img.width, img.height, img.mode, fun x y => img.pix x (img.height - 1 - y)⟩

/-- `img.rotate(180)`. -/
def rot180 (img : Img) : Img :=
  ⟨img.width, img.height, img.mode,
    fun x y => img.pix (img.width - 1 - x) (img.height - 1 - y)⟩

/-- `img.split()[-1]` of an RGBA image: the alpha band as an "L"
image. -/
def alphaBand (img : Img) : Img :=
  ⟨img.width, img.height, "L",
    fun x y => ((img.pix x y).2.2.2, (img.pix x y).2.2.2, (img.pix x y).2.2.2, 255)⟩

/-- `Image.merge("RGBA", (r, g, b, a))` where `r, g, b` come from
`rgbSrc` and the alpha band is `aBand`. -/
def mergeRGBA (rgbSrc aBand : Img) : Img :=
  ⟨rgbSrc.width, rgbSrc.height, "RGBA",
    fun x y =>
      ((rgbSrc.pix x y).1, (rgbSrc.pix x y).2.1, (rgbSrc.pix x y).2.2.1,
        (aBand.pix x y).1)⟩

/-- `dst.paste(src, pos)` without a mask: rectangular overwrite. -/
def paste (dst src : Img) (pos : ℤ × ℤ) : Img :=
  ⟨dst.width, dst.height, dst.mode,
    fun x y =>
      if pos.1 ≤ (x : ℤ) ∧ (x : ℤ) < pos.1 + src.width ∧
          pos.2 ≤ (y : ℤ) ∧ (y : ℤ) < pos.2 + src.height then
        src.pix ((x : ℤ) - pos.1).toNat ((y : ℤ) - pos.2).toNat
      else dst.pix x y⟩

/-- `dst.paste(src, pos, mask)`: inside the pasted box each pixel is a
mask-weighted blend, outside it the destination is untouched.
`maskAt` samples the mask band (the alpha band for an RGBA mask, the
band value for an "L" mask). -/
def pasteMask (ops : Ops) (dst src : Img) (pos : ℤ × ℤ) (maskAt : ℕ → ℕ → ℕ) : Img :=
  ⟨dst.width, dst.height, dst.mode,
    fun x y =>
      if pos.1 ≤ (x : ℤ) ∧ (x : ℤ) < pos.1 + src.width ∧
          pos.2 ≤ (y : ℤ) ∧ (y : ℤ) < pos.2 + src.height then
        ops.blendMaskPix (dst.pix x y)
          (src.pix ((x : ℤ) - pos.1).toNat ((y : ℤ) - pos.2).toNat)
          (maskAt ((x : ℤ) - pos.1).toNat ((y : ℤ) - pos.2).toNat)
      else dst.pix x y⟩

/-- `dst.paste(src, pos, optional mask)`. -/
def pasteOpt (ops : Ops) (dst src : Img) (pos : ℤ × ℤ) :
    Option (ℕ → ℕ → ℕ) → Img
  | none => dst.paste src pos
  | some maskAt => pasteMask ops dst src pos maskAt

/-- `draw.text(pos, text, font, fill)` (in-place on the canvas; here
the updated canvas value). -/
def drawText (ops : Ops) (img : Img) (pos : ℤ × ℤ) (text : String)
    (font : Font) (fill : String) : Img :=
  ⟨img.width, img.height, img.mode, ops.textPix img pos text font fill⟩

/-- `draw.rounded_rectangle(box, radius, fill)`. -/
def drawRoundedRect (ops : Ops) (img : Img) (box : ℤ × ℤ × ℤ × ℤ)
    (radius : ℤ) (fill : String) : Img :=
  ⟨img.width, img.height, img.mode, ops.rrectPix img box radius fill⟩

/-- All alpha values of the raster (row-major), as read by
`getextrema` on the alpha band. -/
def alphaList (img : Img) : List ℕ :=
  (List.range img.height).flatMap fun y =>
    (List.range img.width).map fun x => (img.pix x y).2.2.2

end Img

/-- `Image.linear_gradient("L")`: a fixed 256×256 vertical gradient
whose band value at row `y` is `y`. -/
def linearGradientL : Img :=
  ⟨256, 256, "L", fun _ y => (y, y, y, 255)⟩

/-!
## `src/composition/product_placer.py`
-/

/-- `ProductPlacement` (`src/models/concept.py`).  `size` is a
`Literal["dominant", "balanced", "subtle"]` in the pydantic model but a
plain string at runtime, and `calculate_product_size` explicitly
handles unrecognized values, so it is kept as a string here. -/
structure ProductPlacement where
  position : String
  size : String
  treatment : String

/-- `SIZE_MULTIPLIERS` (`product_placer.py`, lines 20–24), as the
lookup `SIZE_MULTIPLIERS.get`. -/
def SIZE_MULTIPLIERS (s : String) : Option ℚ :=
  if s = "dominant" then some 0.65
  else if s = "balanced" then some 0.45
  else if s = "subtle" then some 0.30
  else none

/-- `load_product_image(source)` with the fetch already resolved. -/
def load_product_image (ops : Ops) (source : String) : Img :=
  let image :=
    if pyStartsWith source "http://" || pyStartsWith source "https://" then
      ops.fetchImage source
    else ops.openImage source
  image.convert ops "RGBA"

/-- `remove_background(image)`. -/
def remove_background (ops : Ops) (image : Img) : Img :=
  (ops.rembg image).convert ops "RGBA"

/-- `has_transparency(image)`: RGBA mode and minimum alpha < 250. -/
def has_transparency (image : Img) : Bool :=
  if image.mode ≠ "RGBA" then false
  else decide ((image.alphaList.min?.getD 255) < 250)

/-- `calculate_product_size(canvas_size, size_directive)`. -/
def calculate_product_size (canvas_size : ℤ × ℤ) (size_directive : String) : ℤ :=
  let multiplier :=
    (SIZE_MULTIPLIERS size_directive).getD ((SIZE_MULTIPLIERS "balanced").getD 0)
  let base_size := min canvas_size.1 canvas_size.2
  pyTrunc ((base_size : ℚ) * multiplier)

/-- `resize_product_image(image, target_max_size)`. -/
def resize_product_image (ops : Ops) (image : Img) (target_max_size : ℤ) : Img :=
  let width := (image.width : ℤ)
  let height := (image.height : ℤ)
  let max_dim := max width height
  if max_dim ≤ target_max_size then image
  else
    let scale : ℚ := (target_max_size : ℚ) / (max_dim : ℚ)
    image.resize ops (pyTrunc ((width : ℚ) * scale)).toNat
      (pyTrunc ((height : ℚ) * scale)).toNat

/-- The final clamp of `calculate_product_position`
(`x = max(0, min(x, canvas_w - prod_w))`, same for `y`). -/
def clampPair (p : ℤ × ℤ) (hx hy : ℤ) : ℤ × ℤ :=
  (max 0 (min p.1 hx), max 0 (min p.2 hy))

/-- `calculate_product_position(canvas_size, product_size,
position_directive, zone)` (`product_placer.py`, lines 137–201). -/
def calculate_product_position (canvas_size product_size : ℤ × ℤ)
    (position_directive : String) (zone : LayoutZone) : ℤ × ℤ :=
  let canvas_w := canvas_size.1
  let canvas_h := canvas_size.2
  let prod_w := product_size.1
  let prod_h := product_size.2
  let b := zone.get_bounds canvas_w canvas_h
  let zone_x1 := b.1
  let zone_y1 := b.2.1
  let zone_x2 := b.2.2.1
  let zone_y2 := b.2.2.2
  let zone_w := zone_x2 - zone_x1
  let zone_h := zone_y2 - zone_y1
  let position := pyReplace (pyReplace (pyLower position_directive) "-" "_") " " "_"
  let zone_center_x := zone_x1 + pyFloorDiv zone_w 2
  let zone_center_y := zone_y1 + pyFloorDiv zone_h 2
  let p :=
    if pyContains position "center" && !pyContains position "bottom" &&
        !pyContains position "top" then
      (zone_center_x - pyFloorDiv prod_w 2, zone_center_y - pyFloorDiv prod_h 2)
    else if pyContains position "left" then
      (zone_x1 + pyTrunc ((zone_w : ℚ) * 0.15), zone_center_y - pyFloorDiv prod_h 2)
    else if pyContains position "right" then
      (zone_x2 - prod_w - pyTrunc ((zone_w : ℚ) * 0.1), zone_center_y - pyFloorDiv prod_h 2)
    else if pyContains position "bottom" then
      let y := zone_y2 - prod_h - pyTrunc ((zone_h : ℚ) * 0.1)
      if pyContains position "right" then
        (zone_x2 - prod_w - pyTrunc ((zone_w : ℚ) * 0.1), y)
      else if pyContains position "left" then
        (zone_x1 + pyTrunc ((zone_w : ℚ) * 0.1), y)
      else (zone_center_x - pyFloorDiv prod_w 2, y)
    else if pyContains position "top" then
      (zone_center_x - pyFloorDiv prod_w 2, zone_y1 + pyTrunc ((zone_h : ℚ) * 0.1))
    else
      (zone_center_x - pyFloorDiv prod_w 2, zone_center_y - pyFloorDiv prod_h 2)
  clampPair p (canvas_w - prod_w) (canvas_h - prod_h)

/-- `apply_drop_shadow(image, offset, blur_radius, shadow_color)`
(defaults `(8, 8)`, `15`, `(0, 0, 0, 100)` are supplied explicitly at
the call sites). -/
def apply_drop_shadow (ops : Ops) (image : Img) (offset : ℤ × ℤ)
    (blur_radius : ℕ) (shadow_color : Pixel) : Img :=
  let shadow_extend := blur_radius * 2 + max offset.1.natAbs offset.2.natAbs
  let new_width := image.width + shadow_extend * 2
  let new_height := image.height + shadow_extend * 2
  let shadow := Img.new "RGBA" new_width new_height (0, 0, 0, 0)
  let shadow_shape :=
    if image.mode = "RGBA" then
      -- Image.new("RGBA", image.size, shadow_color) then putalpha(alpha of image)
      Img.mk image.width image.height "RGBA" fun x y =>
        (shadow_color.1, shadow_color.2.1, shadow_color.2.2.1, (image.pix x y).2.2.2)
    else Img.new "RGBA" image.width image.height shadow_color
  let shadow := shadow.paste shadow_shape
    ((shadow_extend : ℤ) + offset.1, (shadow_extend : ℤ) + offset.2)
  let shadow := shadow.blur ops blur_radius
  shadow.pasteOpt ops image ((shadow_extend : ℤ), (shadow_extend : ℤ))
    (if image.mode = "RGBA" then some (fun x y => (image.pix x y).2.2.2) else none)

/-- `apply_product_treatment(image, treatment)`
(`product_placer.py`, lines 254–300). -/
def apply_product_treatment (ops : Ops) (image : Img) (treatment : String) : Img :=
  let treatment_lower := pyLower treatment
  if pyContains treatment_lower "shadow" || pyContains treatment_lower "floating" then
    apply_drop_shadow ops image (8, 8) 15 (0, 0, 0, 100)
  else if pyContains treatment_lower "reflection" ||
      pyContains treatment_lower "surface" then
    let reflection := image.flipTB
    let gradient := linearGradientL.rot180
    let gradient := gradient.resize ops reflection.width reflection.height
    let reflection :=
      if reflection.mode = "RGBA" then
        let a := reflection.alphaBand
        let aNew : Img :=
          ⟨a.width, a.height, "L",
            ops.imageBlendPix a (gradient.convert ops "L") 0.7⟩
        Img.mergeRGBA reflection aNew
      else reflection
    let total_height := (pyTrunc ((image.height : ℚ) * 1.4)).toNat
    let result := Img.new "RGBA" image.width total_height (0, 0, 0, 0)
    let result := result.pasteOpt ops image (0, 0)
      (if image.mode = "RGBA" then some (fun x y => (image.pix x y).2.2.2) else none)
    let reflection_height := (pyTrunc ((image.height : ℚ) * 0.4)).toNat
    let reflection_cropped :=
      reflection.crop (0, 0, (reflection.width : ℤ), (reflection_height : ℤ))
    result.pasteOpt ops reflection_cropped (0, (image.height : ℤ))
      (if reflection_cropped.mode = "RGBA" then
        some (fun x y => (reflection_cropped.pix x y).2.2.2)
      else none)
  else
    apply_drop_shadow ops image (5, 5) 10 (0, 0, 0, 60)

/-- The value pipeline of `place_product` up to (but excluding) the
final composite: the fully treated product image and its position. -/
def place_product_prepared (ops : Ops) (canvas : Img) (product_source : String)
    (placement : ProductPlacement) (zone : LayoutZone) (remove_bg : Bool) :
    Img × (ℤ × ℤ) :=
  let product := load_product_image ops product_source
  let product :=
    if remove_bg && !has_transparency product then remove_background ops product
    else product
  let target_size :=
    calculate_product_size ((canvas.width : ℤ), (canvas.height : ℤ)) placement.size
  let product := resize_product_image ops product target_size
  let product := apply_product_treatment ops product placement.treatment
  let position := calculate_product_position
    ((canvas.width : ℤ), (canvas.height : ℤ))
    ((product.width : ℤ), (product.height : ℤ)) placement.position zone
  (product, position)

/-- `place_product(canvas, product_source, placement, zone, remove_bg)`
(`product_placer.py`, lines 303–354): the composite goes onto
`result = canvas.copy()`, never onto `canvas` itself. -/
def place_product (ops : Ops) (canvas : Img) (product_source : String)
    (placement : ProductPlacement) (zone : LayoutZone) (remove_bg : Bool) : Img :=
  let prepared := place_product_prepared ops canvas product_source placement zone remove_bg
  let product := prepared.1
  let result := canvas.copy
  result.pasteOpt ops product prepared.2
    (if product.mode = "RGBA" then some (fun x y => (product.pix x y).2.2.2) else none)

/-!
### Object-identity model for the frame property of `place_product`

PIL images are mutable heap objects; `result = canvas.copy()` allocates
a fresh object and `result.paste(...)` mutates only that object.  The
heap maps references to image values; `alloc` returns a fresh
reference. -/

/-- A heap of PIL image objects. -/
structure Heap where
  mem : ℕ → Img
  next : ℕ

/-- Allocate a fresh image object. -/
def Heap.alloc (h : Heap) (img : Img) : ℕ × Heap :=
  (h.next, ⟨fun r => if r = h.next then img else h.mem r, h.next + 1⟩)

/-- Overwrite the object at reference `r` (an in-place mutation such as
`paste`). -/
def Heap.update (h : Heap) (r : ℕ) (img : Img) : Heap :=
  ⟨fun q => if q = r then img else h.mem q, h.next⟩

/-- `place_product` acting on the heap: the canvas is passed by
reference; the intermediate product images are call-local values;
`canvas.copy()` allocates, and the `paste` mutates the fresh object. -/
def place_product_st (ops : Ops) (h : Heap) (canvasRef : ℕ)
    (product_source : String) (placement : ProductPlacement)
    (zone : LayoutZone) (remove_bg : Bool) : ℕ × Heap :=
  let canvas := h.mem canvasRef
  let prepared := place_product_prepared ops canvas product_source placement zone remove_bg
  let product := prepared.1
  let allocated := h.alloc canvas.copy
  let resultRef := allocated.1
  let h1 := allocated.2
  let pasted := (h1.mem resultRef).pasteOpt ops product prepared.2
    (if product.mode = "RGBA" then some (fun x y => (product.pix x y).2.2.2) else none)
  (resultRef, h1.update resultRef pasted)

/-!
## `src/composition/text_renderer.py`
-/

/-- Python `" ".join(words)`. -/
def joinSp : List String → String
  | [] => ""
  | [w] => w
  | w :: ws => w ++ " " ++ joinSp ws

/-- The whitespace class of Python `str.split()` (ASCII range; the
repository's copy strings are ASCII). -/
def pyWs (c : Char) : Bool :=
  c = ' ' || c = '\t' || c = '\n' || c = '\x0b' || c = '\x0c' || c = '\r'

/-- Helper for `str.split()`: accumulate the current word (reversed). -/
def pySplitWsAux : List Char → List Char → List (List Char)
  | [], cur => if cur.isEmpty then [] else [cur.reverse]
  | c :: cs, cur =>
    if pyWs c then
      if cur.isEmpty then pySplitWsAux cs []
      else cur.reverse :: pySplitWsAux cs []
    else pySplitWsAux cs (c :: cur)

/-- Python `text.split()` (no argument): maximal runs of
non-whitespace. -/
def pySplitWs (s : String) : List String :=
  (pySplitWsAux s.toList []).map fun l => ⟨l⟩

/-- The greedy accumulation loop of `wrap_text`: remaining words, lines
built so far, words on the current line.  `measure line` stands for
`font.getbbox(line)[2] - font.getbbox(line)[0]`. -/
def wrapLoop (measure : String → ℤ) (max_width : ℤ) :
    List String → List String → List String → List String
  | [], lines, current_line =>
    if current_line.isEmpty then lines else lines ++ [joinSp current_line]
  | word :: ws, lines, current_line =>
    let test_line := joinSp (current_line ++ [word])
    if measure test_line ≤ max_width then
      wrapLoop measure max_width ws lines (current_line ++ [word])
    else
      wrapLoop measure max_width ws
        (if current_line.isEmpty then lines else lines ++ [joinSp current_line])
        [word]

/-- `wrap_text(text, font, max_width)` (`text_renderer.py`,
lines 80–121), with the font abstracted to its measured line width. -/
def wrap_text (measure : String → ℤ) (max_width : ℤ) (text : String) :
    List String :=
  if ¬ pyTruthyStr text then [] else wrapLoop measure max_width (pySplitWs text) [] []

/-- Measured line width for a loaded font:
`font.getbbox(line)[2] - font.getbbox(line)[0]`. -/
def fontWidth (ops : Ops) (font : Font) (line : String) : ℤ :=
  (ops.getbbox font line).2.2.1 - (ops.getbbox font line).1

/-- Measured line height: `bbox[3] - bbox[1]`. -/
def fontHeight (ops : Ops) (font : Font) (line : String) : ℤ :=
  (ops.getbbox font line).2.2.2 - (ops.getbbox font line).2.1

/-- One iteration of the `render_text_block` line loop: draw the
(optional) shadow copy, then the line; advance the running height. -/
def renderLineStep (ops : Ops) (font : Font) (color : String) (x y : ℤ)
    (max_width line_spacing : ℤ) (align : String) (shadow : Bool)
    (shadow_color : String) (shadow_offset : ℤ × ℤ)
    (st : Img × ℤ) (line : String) : Img × ℤ :=
  let line_width := fontWidth ops font line
  let line_height := fontHeight ops font line
  let line_x :=
    if align = "center" then x + pyFloorDiv (max_width - line_width) 2
    else if align = "right" then x + max_width - line_width
    else x
  let line_y := y + st.2
  let c1 :=
    if shadow then
      st.1.drawText ops (line_x + shadow_offset.1, line_y + shadow_offset.2)
        line font shadow_color
    else st.1
  (c1.drawText ops (line_x, line_y) line font color, st.2 + line_height + line_spacing)

/-- `render_text_block(draw, text, position, font, color, max_width,
line_spacing, align, shadow, shadow_color, shadow_offset)`: returns the
canvas (drawn on in place in the source) and the rendered height. -/
def render_text_block (ops : Ops) (canvas : Img) (text : String)
    (position : ℤ × ℤ) (font : Font) (color : String) (max_width : ℤ)
    (line_spacing : ℤ) (align : String) (shadow : Bool)
    (shadow_color : String) (shadow_offset : ℤ × ℤ) : Img × ℤ :=
  let lines := wrap_text (fontWidth ops font) max_width text
  if lines.isEmpty then (canvas, 0)
  else
    let fin := lines.foldl
      (renderLineStep ops font color position.1 position.2 max_width
        line_spacing align shadow shadow_color shadow_offset)
      (canvas, 0)
    (fin.1, fin.2 - line_spacing)

/-- `render_headline` (defaults: `font_size_ratio=0.045`,
`align="left"`; callers pass the archetype's ratio). -/
def render_headline (ops : Ops) (canvas : Img) (text : String)
    (zone : LayoutZone) (brand_color : String) (fontSizeFrac : ℚ)
    (align : String) : Img × ℤ :=
  let b := zone.get_bounds (canvas.width : ℤ) (canvas.height : ℤ)
  let zone_width := b.2.2.1 - b.1
  let font_size := pyTrunc ((canvas.height : ℚ) * fontSizeFrac)
  let font := load_font ops "bold" font_size
  render_text_block ops canvas text (b.1, b.2.1) font brand_color zone_width
    (pyTrunc ((font_size : ℚ) * 0.3)) align true "#00000080" (2, 2)

/-- `render_body`. -/
def render_body (ops : Ops) (canvas : Img) (text : String)
    (zone : LayoutZone) (y_offset : ℤ) (color : String)
    (fontSizeFrac : ℚ) (align : String) : Img × ℤ :=
  let b := zone.get_bounds (canvas.width : ℤ) (canvas.height : ℤ)
  let zone_width := b.2.2.1 - b.1
  let font_size := pyTrunc ((canvas.height : ℚ) * fontSizeFrac)
  let font := load_font ops "regular" font_size
  render_text_block ops canvas text (b.1, b.2.1 + y_offset) font color zone_width
    (pyTrunc ((font_size : ℚ) * 0.4)) align true "#00000080" (2, 2)

/-- `render_subheadline` (line spacing stays at the
`render_text_block` default `8`). -/
def render_subheadline (ops : Ops) (canvas : Img) (text : String)
    (zone : LayoutZone) (y_offset : ℤ) (color : String)
    (fontSizeFrac : ℚ) : Img × ℤ :=
  let b := zone.get_bounds (canvas.width : ℤ) (canvas.height : ℤ)
  let zone_width := b.2.2.1 - b.1
  let font_size := pyTrunc ((canvas.height : ℚ) * fontSizeFrac)
  let font := load_font ops "semibold" font_size
  render_text_block ops canvas text (b.1, b.2.1 + y_offset) font color zone_width
    8 "left" true "#00000080" (2, 2)

/-- `render_cta_button` (the source's centering `if` picks `x1` in both
branches; reproduced as written). -/
def render_cta_button (ops : Ops) (canvas : Img) (text : String)
    (zone : LayoutZone) (accent_color : String) (text_color : String)
    (fontSizeFrac : ℚ) : Img :=
  let b := zone.get_bounds (canvas.width : ℤ) (canvas.height : ℤ)
  let font_size := pyTrunc ((canvas.height : ℚ) * fontSizeFrac)
  let font := load_font ops "semibold" font_size
  let text_width := fontWidth ops font text
  let text_height := fontHeight ops font text
  let padding_x := pyTrunc ((font_size : ℚ) * 1.2)
  let padding_y := pyTrunc ((font_size : ℚ) * 0.6)
  let button_width := text_width + padding_x * 2
  let button_height := text_height + padding_y * 2
  let zone_width := b.2.2.1 - b.1
  let button_x := if button_width < zone_width then b.1 else b.1
  let button_y := b.2.1
  let corner_radius := pyTrunc ((button_height : ℚ) * 0.3)
  let canvas := canvas.drawRoundedRect ops
    (button_x, button_y, button_x + button_width, button_y + button_height)
    corner_radius accent_color
  canvas.drawText ops (button_x + padding_x, button_y + padding_y) text font text_color

/-- `render_disclaimer` (defaults `position=None`, `color="#999999"`,
`font_size=12` supplied by the caller). -/
def render_disclaimer (ops : Ops) (canvas : Img) (text : String)
    (position : Option (ℤ × ℤ)) (color : String) (font_size : ℤ) : Img :=
  let font := load_font ops "regular" font_size
  let text_width := fontWidth ops font text
  let text_height := fontHeight ops font text
  let pos :=
    match position with
    | some p => p
    | none =>
      (pyFloorDiv ((canvas.width : ℤ) - text_width) 2,
        (canvas.height : ℤ) - text_height - 10)
  canvas.drawText ops pos text font color

/-!
## `src/composition/compositor.py` and the pydantic input models
-/

/-- `ColorPalette` (`src/models/brand.py`). -/
structure ColorPalette where
  primary : String
  secondary : Option String
  accent : Option String
  background : Option String

/-- `BrandContext` (`src/models/brand.py`). -/
structure BrandContext where
  brand_name : String
  brand_voice : String
  tone_keywords : List String
  visual_style : String
  color_palette : ColorPalette
  logo_url : String
  tagline : Option String

/-- `BrandStrategyType` (a validated `Literal`). -/
inductive BrandStrategyType where
  | store_dominant
  | product_dominant
  | co_branded
deriving DecidableEq, Repr

/-- `Dimensions` (`src/models/channel.py`; pydantic validates
`gt=0`). -/
structure Dimensions where
  width : ℕ
  height : ℕ

/-- `TextConstraints` (`src/models/channel.py`). -/
structure TextConstraints where
  headline_max_chars : ℤ
  body_max_chars : ℤ
  cta_max_chars : ℤ

/-- `ChannelContext` (`src/models/channel.py`). -/
structure ChannelContext where
  platform : String
  placement : String
  dimensions : Dimensions
  text_constraints : TextConstraints
  audience_context : Option String

/-- `AdCopy` (`src/models/copy.py`). -/
structure AdCopy where
  icp_id : String
  headline : String
  subheadline : Option String
  body_copy : String
  cta_text : String
  cta_urgency : Option String
  legal_disclaimer : Option String

/-- `CreativeConcept` (`src/models/concept.py`; only the fields the
compositor reads are carried). -/
structure CreativeConcept where
  icp_id : String
  layout_archetype : String
  product_placement : ProductPlacement

/-- `ImageAsset` (`src/models/assets.py`). -/
structure ImageAsset where
  path : String
  url : Option String
  prompt_used : Option String
  width : ℕ
  height : ℕ

/-- The output `Literal["PNG", "JPEG"]`. -/
inductive OutputFormat where
  | PNG
  | JPEG
deriving DecidableEq, Repr

/-- `CompositionInput` (`compositor.py`, lines 34–47). -/
structure CompositionInput where
  background_path : String
  product_image_source : String
  ad_copy : AdCopy
  concept : CreativeConcept
  store_brand : BrandContext
  product_brand : Option BrandContext
  brand_strategy : BrandStrategyType
  channel : ChannelContext
  output_path : String
  output_format : OutputFormat
  remove_product_bg : Bool

namespace Compositor

/-- `Compositor._load_background(path, target_width, target_height)`. -/
def load_background (ops : Ops) (path : String)
    (target_width target_height : ℕ) : Img :=
  let bg := ops.openImage path
  let bg := if bg.mode ≠ "RGB" then bg.convert ops "RGB" else bg
  let bg :=
    if (bg.width, bg.height) ≠ (target_width, target_height) then
      bg.resize ops target_width target_height
    else bg
  bg.convert ops "RGBA"

/-- `Compositor._get_dominant_brand`. -/
def get_dominant_brand (input : CompositionInput) : BrandContext :=
  match input.brand_strategy, input.product_brand with
  | BrandStrategyType.product_dominant, some pb => pb
  | _, _ => input.store_brand

/-- One hex digit of `int(s, 16)`. -/
def hexDigit (c : Char) : Option ℕ :=
  if 48 ≤ c.toNat ∧ c.toNat ≤ 57 then some (c.toNat - 48)
  else if 97 ≤ c.toNat ∧ c.toNat ≤ 102 then some (c.toNat - 87)
  else if 65 ≤ c.toNat ∧ c.toNat ≤ 70 then some (c.toNat - 55)
  else none

/-- Continuation of a hex-digit run: a single `_` is allowed between
two digits (PEP 515), never leading, trailing, or doubled. -/
def hexRun : List Char → ℕ → Option ℕ
  | [], acc => some acc
  | '_' :: [], _ => none
  | '_' :: c :: rest, acc =>
    match hexDigit c with
    | some d => hexRun rest (acc * 16 + d)
    | none => none
  | c :: rest, acc =>
    match hexDigit c with
    | some d => hexRun rest (acc * 16 + d)
    | none => none

/-- A hex number body: at least one digit, then a digit run. -/
def hexBody : List Char → Option ℕ
  | [] => none
  | c :: rest =>
    match hexDigit c with
    | some d => hexRun rest d
    | none => none

/-- Body with the optional `0x`/`0X` prefix; one `_` may follow the
prefix (`int("0x_f", 16) = 15`). -/
def hexWithBasePre : List Char → Option ℕ
  | '0' :: c :: rest =>
    if c = 'x' ∨ c = 'X' then
      match rest with
      | '_' :: rest2 => hexBody rest2
      | _ => hexBody rest
    else hexBody ('0' :: c :: rest)
  | l => hexBody l

/-- Python `int(s, 16)`: surrounding whitespace (ASCII range; the
repository's color strings are ASCII) and one optional sign directly
before the number are tolerated, so the result can be negative; `none`
when `int` raises `ValueError`.  Checked against CPython on the edge
cases (`" F"`, `"F "`, `"+F"`, `"-F"`, `"0x_F"`, `"0_1"`, `"F__F"`,
`"00x1"`, `"+ F"`, ...). -/
def pyIntHex (s : String) : Option ℤ :=
  let core :=
    ((s.toList.dropWhile fun c => pyWs c).reverse.dropWhile fun c => pyWs c).reverse
  match core with
  | '+' :: rest => (hexWithBasePre rest).map fun n => (n : ℤ)
  | '-' :: rest => (hexWithBasePre rest).map fun n => -(n : ℤ)
  | _ => (hexWithBasePre core).map fun n => (n : ℤ)

/-- `background_color.lstrip("#")`. -/
def lstripHash (s : String) : String :=
  ⟨s.toList.dropWhile fun c => c = '#'⟩

/-- The three slice parses `int(hex[:2], 16), int(hex[2:4], 16),
int(hex[4:6], 16)` of `_get_contrasting_text_color`; `none` when any of
them raises. -/
def parsedRGB (background_color : String) : Option (ℤ × ℤ × ℤ) :=
  let l := (lstripHash background_color).toList
  match pyIntHex ⟨l.take 2⟩, pyIntHex ⟨(l.drop 2).take 2⟩,
      pyIntHex ⟨(l.drop 4).take 2⟩ with
  | some r, some g, some b => some (r, g, b)
  | _, _, _ => none

/-- `Compositor._get_contrasting_text_color(background_color)`
(`compositor.py`, lines 381–391): luminance test, any exception caught
to the white default. -/
def get_contrasting_text_color (background_color : String) : String :=
  match parsedRGB background_color with
  | some rgb =>
    let luminance : ℚ :=
      (0.299 * (rgb.1 : ℚ) + 0.587 * (rgb.2.1 : ℚ) + 0.114 * (rgb.2.2 : ℚ)) / 255
    if 1/2 < luminance then "#000000" else "#FFFFFF"
  | none => "#FFFFFF"

/-- `Compositor._render_all_text(canvas, input, layout)`
(`compositor.py`, lines 153–224). -/
def render_all_text (ops : Ops) (canvas : Img) (input : CompositionInput)
    (layout : LayoutSpec) : Img :=
  let dominant_brand := get_dominant_brand input
  let primary_color := dominant_brand.color_palette.primary
  let accent_color :=
    match dominant_brand.color_palette.accent with
    | some a => if pyTruthyStr a then a else primary_color
    | none => primary_color
  -- text_color is computed in the source but not used afterwards
  let _text_color := get_contrasting_text_color primary_color
  let hl := render_headline ops canvas input.ad_copy.headline
    layout.headline_zone primary_color layout.headlineFontFrac "left"
  let canvas := hl.1
  let current_y_offset := hl.2 + 20
  let sub :=
    match input.ad_copy.subheadline with
    | some s =>
      if pyTruthyStr s then
        let r := render_subheadline ops canvas s layout.headline_zone
          current_y_offset "#CCCCCC" 0.030
        (r.1, current_y_offset + r.2 + 15)
      else (canvas, current_y_offset)
    | none => (canvas, current_y_offset)
  let canvas := sub.1
  let canvas :=
    if pyTruthyStr input.ad_copy.body_copy then
      (render_body ops canvas input.ad_copy.body_copy layout.body_zone 0
        "#FFFFFF" layout.bodyFontFrac "left").1
    else canvas
  let canvas := render_cta_button ops canvas input.ad_copy.cta_text
    layout.cta_zone accent_color "#FFFFFF" layout.ctaFontFrac
  match input.ad_copy.cta_urgency with
  | some u =>
    if pyTruthyStr u then
      let font := load_font ops "regular" (pyTrunc ((canvas.height : ℚ) * 0.018))
      let b := layout.cta_zone.get_bounds (canvas.width : ℤ) (canvas.height : ℤ)
      canvas.drawText ops (b.1, b.2.2.2 + 10) u font "#FFCC00"
    else canvas
  | none => canvas

/-- Python `or` on an optional int (`max_height or 30`): `None` and `0`
fall through to the default. -/
def pyOrInt : Option ℤ → ℤ → ℤ
  | none, d => d
  | some v, d => if v = 0 then d else v

/-- Python truthiness of an optional int. -/
def pyTruthyOptInt : Option ℤ → Bool
  | none => false
  | some v => v ≠ 0

/-- `Compositor._render_text_logo`. -/
def render_text_logo (ops : Ops) (canvas : Img) (brand_name : String)
    (position : ℤ × ℤ) (max_height : Option ℤ) : Img :=
  let font_size := min (pyOrInt max_height 30) 30
  let font := load_font ops "bold" font_size
  canvas.drawText ops position brand_name font "#FFFFFF"

/-- `Compositor._resize_to_fit(image, max_width, max_height)`. -/
def resize_to_fit (ops : Ops) (image : Img) (max_width max_height : Option ℤ) : Img :=
  let width := (image.width : ℤ)
  let height := (image.height : ℤ)
  let scale : ℚ := 1
  let scale :=
    match max_width with
    | some mw => if mw ≠ 0 ∧ mw < width then min scale ((mw : ℚ) / (width : ℚ)) else scale
    | none => scale
  let scale :=
    match max_height with
    | some mh => if mh ≠ 0 ∧ mh < height then min scale ((mh : ℚ) / (height : ℚ)) else scale
    | none => scale
  if scale < 1 then
    image.resize ops (pyTrunc ((width : ℚ) * scale)).toNat
      (pyTrunc ((height : ℚ) * scale)).toNat
  else image

/-- `Compositor._place_logo(canvas, logo_source, position, max_width,
max_height, brand_name)` (`compositor.py`, lines 302–344); the
`except` branch is taken exactly when the environment reports a load
failure. -/
def place_logo (ops : Ops) (canvas : Img) (logo_source : Option String)
    (position : ℤ × ℤ) (max_width max_height : Option ℤ)
    (brand_name : String) : Img :=
  let fallback :=
    if pyTruthyStr brand_name then
      render_text_logo ops canvas brand_name position max_height
    else canvas
  if ¬ pyTruthyOptStr logo_source then fallback
  else
    let src := logo_source.getD ""
    if pyContains src "example.com" || pyContains (pyLower src) "placeholder" then
      fallback
    else if ops.logoFails src then fallback
    else
      let logo :=
        if pyStartsWith src "http://" || pyStartsWith src "https://" then
          load_product_image ops src
        else (ops.openImage src).convert ops "RGBA"
      let logo :=
        if pyTruthyOptInt max_width || pyTruthyOptInt max_height then
          resize_to_fit ops logo max_width max_height
        else logo
      canvas.pasteOpt ops logo position
        (if logo.mode = "RGBA" then some (fun x y => (logo.pix x y).2.2.2) else none)

/-- `Compositor._render_logos(canvas, input, layout)`
(`compositor.py`, lines 226–300); `product_dominant` without a product
brand falls through every branch and leaves the canvas unchanged. -/
def render_logos (ops : Ops) (canvas : Img) (input : CompositionInput)
    (layout : LayoutSpec) : Img :=
  let b := layout.logo_zone.get_bounds (canvas.width : ℤ) (canvas.height : ℤ)
  let x1 := b.1
  let y1 := b.2.1
  let zone_width := b.2.2.1 - b.1
  let zone_height := b.2.2.2 - b.2.1
  match input.brand_strategy with
  | BrandStrategyType.store_dominant =>
    place_logo ops canvas (some input.store_brand.logo_url) (x1, y1)
      none (some zone_height) input.store_brand.brand_name
  | BrandStrategyType.product_dominant =>
    match input.product_brand with
    | some pb =>
      let canvas := place_logo ops canvas (some pb.logo_url) (x1, y1)
        none (some zone_height) pb.brand_name
      let font := load_font ops "regular" (pyTrunc ((canvas.height : ℚ) * 0.018))
      canvas.drawText ops (10, (canvas.height : ℤ) - 30)
        ("Available at " ++ input.store_brand.brand_name) font "#CCCCCC"
    | none => canvas
  | BrandStrategyType.co_branded =>
    let half_width := pyFloorDiv zone_width 2
    let canvas := place_logo ops canvas (some input.store_brand.logo_url) (x1, y1)
      (some (half_width - 10)) (some zone_height) input.store_brand.brand_name
    match input.product_brand with
    | some pb =>
      place_logo ops canvas (some pb.logo_url) (x1 + half_width + 10, y1)
        (some (half_width - 10)) (some zone_height) pb.brand_name
    | none => canvas

/-- `Compositor._save_image(image, path, format)`: the written raster
(after the JPEG flatten onto white) and the output path.  Directory
creation and the actual byte encoding happen outside the raster
model. -/
def save_image (ops : Ops) (image : Img) (path : String)
    (format : OutputFormat) : Img × String :=
  let image :=
    if format = OutputFormat.JPEG ∧ image.mode = "RGBA" then
      let background := Img.new "RGB" image.width image.height (255, 255, 255, 255)
      background.pasteMask ops image (0, 0) (fun x y => (image.pix x y).2.2.2)
    else image
  (image, path)

/-- Pipeline stage 1: load and resize the background. -/
def stage_background (ops : Ops) (input : CompositionInput) : Img :=
  load_background ops input.background_path
    input.channel.dimensions.width input.channel.dimensions.height

/-- Pipeline stage 2: place the product. -/
def stage_product (ops : Ops) (input : CompositionInput) : Img :=
  place_product ops (stage_background ops input) input.product_image_source
    input.concept.product_placement
    (get_layout_spec input.concept.layout_archetype).product_zone
    input.remove_product_bg

/-- Pipeline stage 3: render all text. -/
def stage_text (ops : Ops) (input : CompositionInput) : Img :=
  render_all_text ops (stage_product ops input) input
    (get_layout_spec input.concept.layout_archetype)

/-- Pipeline stage 4: render logos. -/
def stage_logos (ops : Ops) (input : CompositionInput) : Img :=
  render_logos ops (stage_text ops input) input
    (get_layout_spec input.concept.layout_archetype)

/-- Pipeline stage 5: optional legal disclaimer. -/
def stage_disclaimer (ops : Ops) (input : CompositionInput) : Img :=
  match input.ad_copy.legal_disclaimer with
  | some d =>
    if pyTruthyStr d then
      render_disclaimer ops (stage_logos ops input) d none "#999999" 12
    else stage_logos ops input
  | none => stage_logos ops input

/-- Pipeline stage 6: the exported raster. -/
def stage_saved (ops : Ops) (input : CompositionInput) : Img :=
  (save_image ops (stage_disclaimer ops input) input.output_path
    input.output_format).1

/-- `Compositor.compose(input)` (`compositor.py`, lines 62–125): runs
the stages in order and returns the `ImageAsset` built from the final
canvas dimensions and the output path. -/
def compose (ops : Ops) (input : CompositionInput) : ImageAsset :=
  let canvas := stage_disclaimer ops input
  let saved := save_image ops canvas input.output_path input.output_format
  { path := saved.2
    url := none
    prompt_used := none
    width := canvas.width
    height := canvas.height }

end Compositor

/-!
## Concrete sample data (used to instantiate universally quantified
results on closed inputs)
-/

/-- A small concrete RGBA image. -/
def sampleImg : Img := ⟨4, 4, "RGBA", fun _ _ => (1, 2, 3, 255)⟩

/-- A concrete environment: every collaborator is a fixed simple
function. -/
def sampleOps : Ops :=
  { openImage := fun _ => sampleImg
    fetchImage := fun _ => sampleImg
    rembg := fun i => i
    convertPix := fun _ i => i.pix
    resamplePix := fun _ _ _ _ _ => (0, 0, 0, 255)
    blurPix := fun _ i => i.pix
    blendMaskPix := fun _ s _ => s
    imageBlendPix := fun a _ _ => a.pix
    fontFile := fun w => w
    getbbox := fun _ _ => (0, 0, 10, 10)
    textPix := fun i _ _ _ _ => i.pix
    rrectPix := fun i _ _ _ => i.pix
    logoFails := fun _ => false }

/-- Concrete ad copy. -/
def sampleCopy : AdCopy :=
  ⟨"icp1", "Buy it", some "Now", "Good stuff", "Go", none, some "Terms apply"⟩

/-- Concrete palette. -/
def samplePalette : ColorPalette := ⟨"#112233", none, some "#445566", none⟩

/-- Concrete brand. -/
def sampleBrand : BrandContext :=
  ⟨"Store", "friendly", [], "clean", samplePalette, "logo.png", none⟩

/-- Concrete placement directive. -/
def samplePlacement : ProductPlacement := ⟨"center", "balanced", "shadow"⟩

/-- Concrete concept. -/
def sampleConcept : CreativeConcept := ⟨"icp1", "Minimal Product Focus", samplePlacement⟩

/-- Concrete channel. -/
def sampleChannel : ChannelContext :=
  ⟨"Instagram", "Feed", ⟨1080, 1080⟩, ⟨40, 120, 20⟩, none⟩

/-- Concrete composition input. -/
def sampleInput : CompositionInput :=
  ⟨"bg.png", "prod.png", sampleCopy, sampleConcept, sampleBrand, none,
    BrandStrategyType.store_dominant, sampleChannel, "out.png",
    OutputFormat.PNG, true⟩

/-- Concrete heap holding one allocated canvas object at reference 0. -/
def sampleHeap : Heap := ⟨fun _ => sampleImg, 1⟩

/-!
## Helper lemmas
-/

theorem clampPair_spec (p : ℤ × ℤ) (hx hy : ℤ) (h1 : 0 ≤ hx) (h2 : 0 ≤ hy) :
    0 ≤ (clampPair p hx hy).1 ∧ (clampPair p hx hy).1 ≤ hx ∧
    0 ≤ (clampPair p hx hy).2 ∧ (clampPair p hx hy).2 ≤ hy := by
  refine ⟨le_max_left 0 _, max_le h1 (min_le_right _ _),
    le_max_left 0 _, max_le h2 (min_le_right _ _)⟩

/-!
## C3 — `LayoutZone.get_bounds`
-/

/-- C4 counterexample: with a 20×20 product on a 10×10 canvas the claim
demands `x ≤ canvas_w - prod_w = -10`, but the clamp floors the result
at 0. -/
theorem C4_counterexample :
    calculate_product_position (10, 10) (20, 20) "center" ⟨0, 1, 0, 1⟩ = (0, 0) ∧
    ¬ ((calculate_product_position (10, 10) (20, 20) "center" ⟨0, 1, 0, 1⟩).1 ≤
        10 - 20) := by
  have hb : LayoutZone.get_bounds ⟨0, 1, 0, 1⟩ 10 10 = (0, 0, 10, 10) := by
    simp only [LayoutZone.get_bounds, pyTrunc]
    norm_num
  have hv : calculate_product_position (10, 10) (20, 20) "center" ⟨0, 1, 0, 1⟩ = (0, 0) := by
    simp +decide [calculate_product_position, hb, pyFloorDiv, clampPair]
  exact ⟨hv, by rw [hv]; decide⟩

/-- C4 (amended): whenever the product fits the canvas
(`prod_w ≤ canvas_w`, `prod_h ≤ canvas_h`), `calculate_product_position`
returns `(x, y)` with `0 ≤ x ≤ canvas_w - prod_w` and
`0 ≤ y ≤ canvas_h - prod_h`, for every directive and zone. -/
theorem C4_position_clamped (canvas_size product_size : ℤ × ℤ)
    (directive : String) (zone : LayoutZone)
    (hw : product_size.1 ≤ canvas_size.1) (hh : product_size.2 ≤ canvas_size.2) :
    0 ≤ (calculate_product_position canvas_size product_size directive zone).1 ∧
    (calculate_product_position canvas_size product_size directive zone).1 ≤
      canvas_size.1 - product_size.1 ∧
    0 ≤ (calculate_product_position canvas_size product_size directive zone).2 ∧
    (calculate_product_position canvas_size product_size directive zone).2 ≤
      canvas_size.2 - product_size.2 := by
  obtain ⟨q, hq⟩ : ∃ q : ℤ × ℤ,
      calculate_product_position canvas_size product_size directive zone =
        clampPair q (canvas_size.1 - product_size.1)
          (canvas_size.2 - product_size.2) := ⟨_, rfl⟩
  rw [hq]
  exact clampPair_spec q _ _ (sub_nonneg.mpr hw) (sub_nonneg.mpr hh)

/-- Closed instance of `C4_position_clamped`: a 30×40 product on a
100×100 canvas with directive "bottom-left". -/
theorem C4_position_clamped_witness :
    0 ≤ (calculate_product_position (100, 100) (30, 40) "bottom-left" ⟨0, 1, 0, 1⟩).1 ∧
    (calculate_product_position (100, 100) (30, 40) "bottom-left" ⟨0, 1, 0, 1⟩).1 ≤
      100 - 30 ∧
    0 ≤ (calculate_product_position (100, 100) (30, 40) "bottom-left" ⟨0, 1, 0, 1⟩).2 ∧
    (calculate_product_position (100, 100) (30, 40) "bottom-left" ⟨0, 1, 0, 1⟩).2 ≤
      100 - 40 :=
  C4_position_clamped (100, 100) (30, 40) "bottom-left" ⟨0, 1, 0, 1⟩
    (by decide) (by decide)

/-!
## C5 — parsing of the position directive

The `elif` chain of `calculate_product_position` tests `"left"`/
`"right"` before `"bottom"`, so a directive such as `"bottom-left"` is
captured by the side branch (15% left inset, vertically centred) and
the corner-placement code inside the `"bottom"` branch (lines 185–188
of `product_placer.py`) is unreachable dead code.  The claimed corner
placement for `"bottom-left"` on a 1000×1000 canvas with a full-canvas
zone and a 200×200 product would be `(100, 700)`; the code produces
`(150, 400)`.
-/

/-- C5: evaluating the code at the failing input `"bottom-left"`:
the result is the side placement `(150, 400)`, not the claimed corner
placement `(100, 700)`. -/
theorem C5_bottom_left_eval :
    calculate_product_position (1000, 1000) (200, 200) "bottom-left" ⟨0, 1, 0, 1⟩ =
      (150, 400) ∧
    ((150, 400) : ℤ × ℤ) ≠ (100, 700) := by
  have hb : LayoutZone.get_bounds ⟨0, 1, 0, 1⟩ 1000 1000 = (0, 0, 1000, 1000) := by
    simp only [LayoutZone.get_bounds, pyTrunc]
    norm_num
  constructor
  · simp +decide [calculate_product_position, hb, pyFloorDiv, clampPair, pyTrunc]
    norm_num
  · decide

/-!
## C6 — `calculate_product_size`
-/

/-- C6: the size is the toward-zero truncation of
`multiplier[size_category] * min(canvas)` with multipliers 0.65 / 0.45
/ 0.30 and "balanced" as the fallback; on a 1080×1080 canvas this gives
702 / 486 / 324. -/
theorem C6_product_size :
    calculate_product_size (1080, 1080) "dominant" = 702 ∧
    calculate_product_size (1080, 1080) "balanced" = 486 ∧
    calculate_product_size (1080, 1080) "subtle" = 324 ∧
    (∀ c : ℤ × ℤ, ∀ s : String,
      s ≠ "dominant" → s ≠ "balanced" → s ≠ "subtle" →
      calculate_product_size c s = calculate_product_size c "balanced") ∧
    (∀ c : ℤ × ℤ, ∀ s : String,
      calculate_product_size c s =
        pyTrunc ((if s = "dominant" then (0.65 : ℚ)
          else if s = "balanced" then 0.45
          else if s = "subtle" then 0.30
          else 0.45) * (min c.1 c.2 : ℤ))) := by
  refine ⟨?_, ?_, ?_, ?_, ?_⟩
  · simp +decide [calculate_product_size, SIZE_MULTIPLIERS, pyTrunc]
    norm_num
  · simp +decide [calculate_product_size, SIZE_MULTIPLIERS, pyTrunc]
    norm_num
  · simp +decide [calculate_product_size, SIZE_MULTIPLIERS, pyTrunc]
    norm_num
  · intro c s h1 h2 h3
    simp [calculate_product_size, SIZE_MULTIPLIERS, h1, h2, h3]
  · intro c s
    simp only [calculate_product_size, SIZE_MULTIPLIERS]
    split_ifs <;> simp_all <;> ring_nf

/-- Closed instance of the fallback clause of `C6_product_size`: an
unrecognized category behaves like "balanced". -/
theorem C6_product_size_witness :
    calculate_product_size (64, 100) "huge" = calculate_product_size (64, 100) "balanced" :=
  C6_product_size.2.2.2.1 (64, 100) "huge" (by decide) (by decide) (by decide)

/-!
## C7 — `get_layout_spec` resolution
-/

set_option maxRecDepth 100000 in
/-- C7: `get_layout_spec` is total; an exact archetype name returns its
spec, the near-miss "Hero Product" fuzzily resolves to the hero spec
(whose name contains "Hero"), and an unmatchable name falls back to the
"Minimal Product Focus" default. -/
theorem C7_layout_resolution :
    get_layout_spec "Hero Product with Stat Overlay" = heroSpec ∧
    pyContains (get_layout_spec "Hero Product").name "Hero" = true ∧
    get_layout_spec "Hero Product" = heroSpec ∧
    get_layout_spec "TotallyUnknown" = minimalSpec ∧
    ∀ s : String, ∃ spec : LayoutSpec, get_layout_spec s = spec := by
  refine ⟨rfl, rfl, rfl, rfl, fun s => ⟨_, rfl⟩⟩

/-!
## C8 — contrast color
-/

/-- C9: for any allocated canvas reference, `place_product` leaves the
object behind that reference untouched (the composite goes onto the
fresh `canvas.copy()`), the returned reference is a different object,
and the returned object holds exactly the `place_product` result for
the caller's canvas value. -/
theorem C9_place_product_frame (ops : Ops) (h : Heap) (canvasRef : ℕ)
    (source : String) (placement : ProductPlacement) (zone : LayoutZone)
    (remove_bg : Bool) (href : canvasRef < h.next) :
    (place_product_st ops h canvasRef source placement zone remove_bg).2.mem canvasRef
      = h.mem canvasRef ∧
    (place_product_st ops h canvasRef source placement zone remove_bg).1 ≠ canvasRef ∧
    (place_product_st ops h canvasRef source placement zone remove_bg).2.mem
        (place_product_st ops h canvasRef source placement zone remove_bg).1
      = place_product ops (h.mem canvasRef) source placement zone remove_bg := by
  have hne : canvasRef ≠ h.next := Nat.ne_of_lt href
  refine ⟨?_, ?_, ?_⟩
  · simp [place_product_st, Heap.alloc, Heap.update, hne]
  · simp only [place_product_st, Heap.alloc]
    omega
  · simp [place_product_st, Heap.alloc, Heap.update, place_product, Img.copy]

/-- Closed instance of `C9_place_product_frame` on the sample heap. -/
theorem C9_place_product_frame_witness :
    (place_product_st sampleOps sampleHeap 0 "prod.png" samplePlacement
        ⟨0, 1, 0, 1⟩ true).2.mem 0 = sampleHeap.mem 0 ∧
    (place_product_st sampleOps sampleHeap 0 "prod.png" samplePlacement
        ⟨0, 1, 0, 1⟩ true).1 ≠ 0 ∧
    (place_product_st sampleOps sampleHeap 0 "prod.png" samplePlacement
        ⟨0, 1, 0, 1⟩ true).2.mem
        (place_product_st sampleOps sampleHeap 0 "prod.png" samplePlacement
          ⟨0, 1, 0, 1⟩ true).1
      = place_product sampleOps (sampleHeap.mem 0) "prod.png" samplePlacement
          ⟨0, 1, 0, 1⟩ true :=
  C9_place_product_frame sampleOps sampleHeap 0 "prod.png" samplePlacement
    ⟨0, 1, 0, 1⟩ true (by decide)

/-!
## C10 — `wrap_text`
-/

theorem joinSp_cons (w : String) {ws : List String} (h : ws ≠ []) :
    joinSp (w :: ws) = w ++ " " ++ joinSp ws := by
  cases ws with
  | nil => exact absurd rfl h
  | cons x xs => rfl

theorem joinSp_append {l1 l2 : List String} (h1 : l1 ≠ []) (h2 : l2 ≠ []) :
    joinSp (l1 ++ l2) = joinSp l1 ++ " " ++ joinSp l2 := by
  induction l1 with
  | nil => exact absurd rfl h1
  | cons a l1 ih =>
    cases l1 with
    | nil =>
      simpa [joinSp] using joinSp_cons a h2
    | cons b l1 =>
      have hne : (b :: l1) ++ l2 ≠ [] := by simp
      rw [List.cons_append, joinSp_cons a hne, ih (by simp),
        joinSp_cons a (by simp : b :: l1 ≠ [])]
      simp [String.append_assoc]

theorem joinSp_ne_empty {ws : List String} (h : ws ≠ [])
    (hw : ∀ w ∈ ws, w ≠ "") : joinSp ws ≠ "" := by
  cases ws with
  | nil => exact absurd rfl h
  | cons a ws =>
    cases ws with
    | nil => exact hw a (by simp)
    | cons b ws =>
      rw [joinSp_cons a (by simp : b :: ws ≠ [])]
      intro hcontra
      have h1 := congrArg String.length hcontra
      simp only [String.length_append] at h1
      have h2 : (" " : String).length = 1 := rfl
      have h3 : ("" : String).length = 0 := rfl
      omega

theorem wrapLoop_append (m : String → ℤ) (W : ℤ) :
    ∀ (ws cur l1 l2 : List String),
      wrapLoop m W ws (l1 ++ l2) cur = l1 ++ wrapLoop m W ws l2 cur := by
  intro ws
  induction ws with
  | nil =>
    intro cur l1 l2
    by_cases hcur : cur.isEmpty <;> simp [wrapLoop, hcur]
  | cons w ws ih =>
    intro cur l1 l2
    simp only [wrapLoop]
    split
    · exact ih (cur ++ [w]) l1 l2
    · by_cases hcur : cur.isEmpty
      · simp only [hcur, if_true]
        exact ih [w] l1 l2
      · simp only [hcur, if_false]
        rw [List.append_assoc]
        exact ih [w] l1 (l2 ++ [joinSp cur])

theorem wrapLoop_lines (m : String → ℤ) (W : ℤ) (ws lines cur : List String) :
    wrapLoop m W ws lines cur = lines ++ wrapLoop m W ws [] cur := by
  have := wrapLoop_append m W ws cur lines []
  simpa using this

theorem wrapLoop_ne_nil (m : String → ℤ) (W : ℤ) :
    ∀ (ws cur : List String), cur ≠ [] → wrapLoop m W ws [] cur ≠ [] := by
  intro ws
  induction ws with
  | nil =>
    intro cur hcur
    simp [wrapLoop, List.isEmpty_iff, hcur]
  | cons w ws ih =>
    intro cur hcur
    simp only [wrapLoop]
    split
    · exact ih (cur ++ [w]) (by simp)
    · rw [wrapLoop_lines]
      intro hcontra
      exact ih [w] (by simp) (List.append_eq_nil.mp hcontra).2

theorem wrapLoop_join (m : String → ℤ) (W : ℤ) :
    ∀ (ws cur : List String), (∀ w ∈ cur, w ≠ "") → (∀ w ∈ ws, w ≠ "") →
      joinSp (wrapLoop m W ws [] cur) = joinSp (cur ++ ws) := by
  intro ws
  induction ws with
  | nil =>
    intro cur _ _
    by_cases hcur : cur.isEmpty
    · simp [wrapLoop, hcur, List.isEmpty_iff.mp hcur, joinSp]
    · simp [wrapLoop, hcur, joinSp]
  | cons w ws ih =>
    intro cur hcur hws
    have hwne : w ≠ "" := hws w (by simp)
    have hwsne : ∀ x ∈ ws, x ≠ "" := fun x hx => hws x (by simp [hx])
    simp only [wrapLoop]
    split
    · rw [ih (cur ++ [w]) (by
        intro x hx
        rcases List.mem_append.mp hx with hx | hx
        · exact hcur x hx
        · simpa using (List.mem_singleton.mp hx ▸ hwne)) hwsne]
      simp
    · by_cases hc : cur.isEmpty
      · simp only [hc, if_true]
        rw [ih [w] (by simpa using hwne) hwsne]
        simp [List.isEmpty_iff.mp hc]
      · have hcne : cur ≠ [] := by simpa [List.isEmpty_iff] using hc
        rw [if_neg hc, List.nil_append, wrapLoop_lines]
        have hrest := wrapLoop_ne_nil m W ws [w] (by simp)
        rw [joinSp_append (by simp : [joinSp cur] ≠ ([] : List String)) hrest]
        rw [ih [w] (by simpa using hwne) hwsne]
        have h2 : joinSp ([joinSp cur] : List String) = joinSp cur := rfl
        rw [h2, List.singleton_append,
          ← joinSp_append hcne (by simp : w :: ws ≠ [])]

theorem wrapLoop_mem_ne (m : String → ℤ) (W : ℤ) :
    ∀ (ws lines cur : List String),
      (∀ l ∈ lines, l ≠ "") → (∀ x ∈ cur, x ≠ "") → (∀ x ∈ ws, x ≠ "") →
      ∀ l ∈ wrapLoop m W ws lines cur, l ≠ "" := by
  intro ws
  induction ws with
  | nil =>
    intro lines cur hlines hcur _
    by_cases hc : cur.isEmpty
    · simpa [wrapLoop, hc] using hlines
    · have hcne : cur ≠ [] := by simpa [List.isEmpty_iff] using hc
      simp only [wrapLoop, hc, if_false]
      intro l hl
      rcases List.mem_append.mp hl with hl | hl
      · exact hlines l hl
      · rw [List.mem_singleton.mp hl]
        exact joinSp_ne_empty hcne hcur
  | cons w ws ih =>
    intro lines cur hlines hcur hws
    have hwne : w ≠ "" := hws w (by simp)
    have hwsne : ∀ x ∈ ws, x ≠ "" := fun x hx => hws x (by simp [hx])
    simp only [wrapLoop]
    split
    · refine ih lines (cur ++ [w]) hlines ?_ hwsne
      intro x hx
      rcases List.mem_append.mp hx with hx | hx
      · exact hcur x hx
      · simpa using (List.mem_singleton.mp hx ▸ hwne)
    · by_cases hc : cur.isEmpty
      · simp only [hc, if_true]
        exact ih lines [w] hlines (by simpa using hwne) hwsne
      · have hcne : cur ≠ [] := by simpa [List.isEmpty_iff] using hc
        simp only [hc, if_false]
        refine ih (lines ++ [joinSp cur]) [w] ?_ (by simpa using hwne) hwsne
        intro l hl
        rcases List.mem_append.mp hl with hl | hl
        · exact hlines l hl
        · rw [List.mem_singleton.mp hl]
          exact joinSp_ne_empty hcne hcur

theorem wrapLoop_mem_lines (m : String → ℤ) (W : ℤ) :
    ∀ (ws lines cur : List String) (l : String), l ∈ lines →
      l ∈ wrapLoop m W ws lines cur := by
  intro ws
  induction ws with
  | nil =>
    intro lines cur l hl
    by_cases hc : cur.isEmpty <;> simp [wrapLoop, hc, List.mem_append, hl]
  | cons w ws ih =>
    intro lines cur l hl
    simp only [wrapLoop]
    split
    · exact ih lines (cur ++ [w]) l hl
    · by_cases hc : cur.isEmpty
      · simp only [hc, if_true]
        exact ih lines [w] l hl
      · simp only [hc, if_false]
        exact ih (lines ++ [joinSp cur]) [w] l (by simp [hl])

theorem wrapLoop_alone_single (m : String → ℤ) (W : ℤ)
    (hL : ∀ s t : String, m s ≤ m (s ++ " " ++ t)) :
    ∀ (ws lines : List String) (w : String), W < m w →
      w ∈ wrapLoop m W ws lines [w] := by
  intro ws
  induction ws with
  | nil =>
    intro lines w _
    simp [wrapLoop, joinSp]
  | cons w2 ws ih =>
    intro lines w hw
    have htest : joinSp ([w] ++ [w2]) = w ++ " " ++ w2 := rfl
    have hbig : ¬ (m (joinSp ([w] ++ [w2])) ≤ W) := by
      rw [htest]
      have := hL w w2
      omega
    simp only [wrapLoop, List.cons_append, List.nil_append]
    rw [if_neg (by simpa using hbig)]
    simp only [List.isEmpty_cons, if_false]
    refine wrapLoop_mem_lines m W ws _ [w2] w ?_
    simp [joinSp]

theorem wrapLoop_alone (m : String → ℤ) (W : ℤ)
    (hL : ∀ s t : String, m s ≤ m (s ++ " " ++ t))
    (hR : ∀ s t : String, m t ≤ m (s ++ " " ++ t)) :
    ∀ (ws lines cur : List String) (w : String), w ∈ ws → W < m w →
      w ∈ wrapLoop m W ws lines cur := by
  intro ws
  induction ws with
  | nil =>
    intro _ _ w hw
    exact absurd hw (by simp)
  | cons w2 ws ih =>
    intro lines cur w hw hbig
    rcases List.mem_cons.mp hw with hw | hw
    · subst hw
      by_cases hc : cur.isEmpty
      · have hcur : cur = [] := List.isEmpty_iff.mp hc
        subst hcur
        have htest : joinSp ([] ++ [w]) = w := rfl
        simp only [wrapLoop, List.nil_append]
        rw [if_neg (by
          have : joinSp [w] = w := rfl
          rw [this]
          omega)]
        simp only [List.isEmpty_nil, if_true]
        exact wrapLoop_alone_single m W hL ws lines w hbig
      · have hcne : cur ≠ [] := by simpa [List.isEmpty_iff] using hc
        have htest : joinSp (cur ++ [w]) = joinSp cur ++ " " ++ w :=
          joinSp_append hcne (by simp)
        simp only [wrapLoop]
        rw [if_neg (by
          rw [htest]
          have := hR (joinSp cur) w
          omega)]
        simp only [hc, if_false]
        exact wrapLoop_alone_single m W hL ws _ w hbig
    · simp only [wrapLoop]
      split
      · exact ih lines (cur ++ [w2]) w hw hbig
      · split
        · exact ih lines [w2] w hw hbig
        · exact ih (lines ++ [joinSp cur]) [w2] w hw hbig

theorem pySplitWsAux_ne_nil :
    ∀ (l cur : List Char), ∀ w ∈ pySplitWsAux l cur, w ≠ [] := by
  intro l
  induction l with
  | nil =>
    intro cur w hw
    by_cases hc : cur.isEmpty
    · simp [pySplitWsAux, hc] at hw
    · simp only [pySplitWsAux, hc, if_false] at hw
      rw [List.mem_singleton.mp hw]
      simpa [List.isEmpty_iff] using hc
  | cons c cs ih =>
    intro cur w hw
    by_cases h1 : pyWs c
    · rw [pySplitWsAux, if_pos h1] at hw
      by_cases h2 : cur.isEmpty
      · rw [if_pos h2] at hw
        exact ih [] w hw
      · rw [if_neg h2] at hw
        rcases List.mem_cons.mp hw with hw | hw
        · rw [hw]
          simp only [ne_eq, List.reverse_eq_nil_iff]
          simpa [List.isEmpty_iff] using h2
        · exact ih [] w hw
    · rw [pySplitWsAux, if_neg h1] at hw
      exact ih (c :: cur) w hw

theorem pySplitWs_ne_empty (t : String) : ∀ w ∈ pySplitWs t, w ≠ "" := by
  intro w hw
  simp only [pySplitWs, List.mem_map] at hw
  obtain ⟨l, hl, rfl⟩ := hw
  have := pySplitWsAux_ne_nil t.toList [] l hl
  intro hcontra
  exact this (congrArg String.toList hcontra)

/-- C10: `wrap_text` never splits or drops a word (the lines joined by
single spaces equal the whitespace-normalized input), every returned
line is non-empty, a word measuring wider than `max_width` is returned
alone as its own line, and wordless input yields no lines.  The two
hypotheses state that the font's measured width never shrinks when a
word is appended on either side — true of `getbbox` widths. -/
theorem C10_wrap_text (measure : String → ℤ) (max_width : ℤ) (text : String)
    (hL : ∀ s t : String, measure s ≤ measure (s ++ " " ++ t))
    (hR : ∀ s t : String, measure t ≤ measure (s ++ " " ++ t)) :
    joinSp (wrap_text measure max_width text) = joinSp (pySplitWs text) ∧
    (∀ l ∈ wrap_text measure max_width text, l ≠ "") ∧
    (∀ w ∈ pySplitWs text, max_width < measure w →
      w ∈ wrap_text measure max_width text) ∧
    (pySplitWs text = [] → wrap_text measure max_width text = []) := by
  refine ⟨?_, ?_, ?_, ?_⟩
  · simp only [wrap_text]
    split
    · rename_i htext
      have : text = "" := by
        by_contra hne
        exact htext (by simpa [pyTruthyStr] using hne)
      subst this
      rfl
    · exact (wrapLoop_join measure max_width (pySplitWs text) []
        (by simp) (pySplitWs_ne_empty text)).trans (by simp)
  · simp only [wrap_text]
    split
    · simp
    · exact wrapLoop_mem_ne measure max_width (pySplitWs text) [] []
        (by simp) (by simp) (pySplitWs_ne_empty text)
  · intro w hw hbig
    simp only [wrap_text]
    split
    · rename_i htext
      have : text = "" := by
        by_contra hne
        exact htext (by simpa [pyTruthyStr] using hne)
      subst this
      simp [pySplitWs, pySplitWsAux] at hw
    · exact wrapLoop_alone measure max_width hL hR (pySplitWs text) [] [] w hw hbig
  · intro hnone
    simp only [wrap_text]
    split
    · rfl
    · rw [hnone]
      rfl

/-- Closed instance of `C10_wrap_text` with `measure = length` and
`max_width = 8` on `"stretch limousine x"`: the 9-character word
"limousine" overflows and sits alone on its own line. -/
theorem C10_wrap_text_witness :
    joinSp (wrap_text (fun s => (s.length : ℤ)) 8 "stretch limousine x") =
      joinSp (pySplitWs "stretch limousine x") ∧
    (∀ l ∈ wrap_text (fun s => (s.length : ℤ)) 8 "stretch limousine x", l ≠ "") ∧
    (∀ w ∈ pySplitWs "stretch limousine x",
      8 < (w.length : ℤ) →
      w ∈ wrap_text (fun s => (s.length : ℤ)) 8 "stretch limousine x") ∧
    (pySplitWs "stretch limousine x" = [] →
      wrap_text (fun s => (s.length : ℤ)) 8 "stretch limousine x" = []) :=
  C10_wrap_text (fun s => (s.length : ℤ)) 8 "stretch limousine x"
    (by
      intro s t
      simp [String.length_append]
      omega)
    (by
      intro s t
      simp [String.length_append]
      omega)

/-!
## Dimension-preservation lemmas for the pipeline (C2)
-/

@[simp] theorem Img.convert_width (ops : Ops) (i : Img) (m : String) :
    (i.convert ops m).width = i.width := rfl

@[simp] theorem Img.convert_height (ops : Ops) (i : Img) (m : String) :
    (i.convert ops m).height = i.height := rfl

@[simp] theorem Img.resize_width (ops : Ops) (i : Img) (w h : ℕ) :
    (i.resize ops w h).width = w := rfl

@[simp] theorem Img.resize_height (ops : Ops) (i : Img) (w h : ℕ) :
    (i.resize ops w h).height = h := rfl

@[simp] theorem Img.paste_width (dst src : Img) (pos : ℤ × ℤ) :
    (dst.paste src pos).width = dst.width := rfl

@[simp] theorem Img.paste_height (dst src : Img) (pos : ℤ × ℤ) :
    (dst.paste src pos).height = dst.height := rfl

@[simp] theorem Img.pasteMask_width (ops : Ops) (dst src : Img) (pos : ℤ × ℤ)
    (maskAt : ℕ → ℕ → ℕ) : (Img.pasteMask ops dst src pos maskAt).width = dst.width := rfl

@[simp] theorem Img.pasteMask_height (ops : Ops) (dst src : Img) (pos : ℤ × ℤ)
    (maskAt : ℕ → ℕ → ℕ) : (Img.pasteMask ops dst src pos maskAt).height = dst.height := rfl

@[simp] theorem Img.pasteOpt_width (ops : Ops) (dst src : Img) (pos : ℤ × ℤ)
    (mask : Option (ℕ → ℕ → ℕ)) :
    (Img.pasteOpt ops dst src pos mask).width = dst.width := by
  cases mask <;> rfl

@[simp] theorem Img.pasteOpt_height (ops : Ops) (dst src : Img) (pos : ℤ × ℤ)
    (mask : Option (ℕ → ℕ → ℕ)) :
    (Img.pasteOpt ops dst src pos mask).height = dst.height := by
  cases mask <;> rfl

@[simp] theorem Img.drawText_width (ops : Ops) (i : Img) (pos : ℤ × ℤ)
    (text : String) (font : Font) (fill : String) :
    (i.drawText ops pos text font fill).width = i.width := rfl

@[simp] theorem Img.drawText_height (ops : Ops) (i : Img) (pos : ℤ × ℤ)
    (text : String) (font : Font) (fill : String) :
    (i.drawText ops pos text font fill).height = i.height := rfl

@[simp] theorem Img.drawRoundedRect_width (ops : Ops) (i : Img)
    (box : ℤ × ℤ × ℤ × ℤ) (radius : ℤ) (fill : String) :
    (i.drawRoundedRect ops box radius fill).width = i.width := rfl

@[simp] theorem Img.drawRoundedRect_height (ops : Ops) (i : Img)
    (box : ℤ × ℤ × ℤ × ℤ) (radius : ℤ) (fill : String) :
    (i.drawRoundedRect ops box radius fill).height = i.height := rfl

theorem place_product_width (ops : Ops) (canvas : Img) (src : String)
    (pl : ProductPlacement) (z : LayoutZone) (rb : Bool) :
    (place_product ops canvas src pl z rb).width = canvas.width := by
  simp [place_product, Img.copy]

theorem place_product_height (ops : Ops) (canvas : Img) (src : String)
    (pl : ProductPlacement) (z : LayoutZone) (rb : Bool) :
    (place_product ops canvas src pl z rb).height = canvas.height := by
  simp [place_product, Img.copy]

theorem renderLineStep_fold_width (ops : Ops) (font : Font) (color : String)
    (x y mw ls : ℤ) (align : String) (sh : Bool) (shc : String)
    (sho : ℤ × ℤ) :
    ∀ (lines : List String) (st : Img × ℤ),
      ((lines.foldl (renderLineStep ops font color x y mw ls align sh shc sho) st).1).width
        = st.1.width := by
  intro lines
  induction lines with
  | nil => intro st; rfl
  | cons line lines ih =>
    intro st
    rw [List.foldl_cons, ih]
    simp only [renderLineStep]
    split <;> simp

theorem renderLineStep_fold_height (ops : Ops) (font : Font) (color : String)
    (x y mw ls : ℤ) (align : String) (sh : Bool) (shc : String)
    (sho : ℤ × ℤ) :
    ∀ (lines : List String) (st : Img × ℤ),
      ((lines.foldl (renderLineStep ops font color x y mw ls align sh shc sho) st).1).height
        = st.1.height := by
  intro lines
  induction lines with
  | nil => intro st; rfl
  | cons line lines ih =>
    intro st
    rw [List.foldl_cons, ih]
    simp only [renderLineStep]
    split <;> simp

theorem render_text_block_width (ops : Ops) (canvas : Img) (text : String)
    (pos : ℤ × ℤ) (font : Font) (color : String) (mw ls : ℤ)
    (align : String) (sh : Bool) (shc : String) (sho : ℤ × ℤ) :
    (render_text_block ops canvas text pos font color mw ls align sh shc sho).1.width
      = canvas.width := by
  simp only [render_text_block]
  split
  · rfl
  · exact renderLineStep_fold_width ops font color pos.1 pos.2 mw ls align sh shc sho _ _

theorem render_text_block_height (ops : Ops) (canvas : Img) (text : String)
    (pos : ℤ × ℤ) (font : Font) (color : String) (mw ls : ℤ)
    (align : String) (sh : Bool) (shc : String) (sho : ℤ × ℤ) :
    (render_text_block ops canvas text pos font color mw ls align sh shc sho).1.height
      = canvas.height := by
  simp only [render_text_block]
  split
  · rfl
  · exact renderLineStep_fold_height ops font color pos.1 pos.2 mw ls align sh shc sho _ _

theorem render_headline_width (ops : Ops) (canvas : Img) (text : String)
    (zone : LayoutZone) (bc : String) (fr : ℚ) (align : String) :
    (render_headline ops canvas text zone bc fr align).1.width = canvas.width := by
  simp only [render_headline]
  exact render_text_block_width ops canvas text _ _ bc _ _ align true _ _

theorem render_headline_height (ops : Ops) (canvas : Img) (text : String)
    (zone : LayoutZone) (bc : String) (fr : ℚ) (align : String) :
    (render_headline ops canvas text zone bc fr align).1.height = canvas.height := by
  simp only [render_headline]
  exact render_text_block_height ops canvas text _ _ bc _ _ align true _ _

theorem render_body_width (ops : Ops) (canvas : Img) (text : String)
    (zone : LayoutZone) (yo : ℤ) (color : String) (fr : ℚ) (align : String) :
    (render_body ops canvas text zone yo color fr align).1.width = canvas.width := by
  simp only [render_body]
  exact render_text_block_width ops canvas text _ _ color _ _ align true _ _

theorem render_body_height (ops : Ops) (canvas : Img) (text : String)
    (zone : LayoutZone) (yo : ℤ) (color : String) (fr : ℚ) (align : String) :
    (render_body ops canvas text zone yo color fr align).1.height = canvas.height := by
  simp only [render_body]
  exact render_text_block_height ops canvas text _ _ color _ _ align true _ _

theorem render_subheadline_width (ops : Ops) (canvas : Img) (text : String)
    (zone : LayoutZone) (yo : ℤ) (color : String) (fr : ℚ) :
    (render_subheadline ops canvas text zone yo color fr).1.width = canvas.width := by
  simp only [render_subheadline]
  exact render_text_block_width ops canvas text _ _ color _ 8 "left" true _ _

theorem render_subheadline_height (ops : Ops) (canvas : Img) (text : String)
    (zone : LayoutZone) (yo : ℤ) (color : String) (fr : ℚ) :
    (render_subheadline ops canvas text zone yo color fr).1.height = canvas.height := by
  simp only [render_subheadline]
  exact render_text_block_height ops canvas text _ _ color _ 8 "left" true _ _

theorem render_cta_button_dims (ops : Ops) (canvas : Img) (text : String)
    (zone : LayoutZone) (ac tc : String) (fr : ℚ) :
    (render_cta_button ops canvas text zone ac tc fr).width = canvas.width ∧
    (render_cta_button ops canvas text zone ac tc fr).height = canvas.height := by
  simp [render_cta_button]

theorem render_disclaimer_dims (ops : Ops) (canvas : Img) (text : String)
    (pos : Option (ℤ × ℤ)) (color : String) (fs : ℤ) :
    (render_disclaimer ops canvas text pos color fs).width = canvas.width ∧
    (render_disclaimer ops canvas text pos color fs).height = canvas.height := by
  cases pos <;> simp [render_disclaimer]

theorem render_all_text_dims (ops : Ops) (canvas : Img)
    (input : CompositionInput) (layout : LayoutSpec) :
    (Compositor.render_all_text ops canvas input layout).width = canvas.width ∧
    (Compositor.render_all_text ops canvas input layout).height = canvas.height := by
  rcases hsub : input.ad_copy.subheadline with _ | s <;>
    rcases hurg : input.ad_copy.cta_urgency with _ | u <;>
    simp only [Compositor.render_all_text, hsub, hurg] <;>
    split_ifs <;>
    simp [render_headline_width, render_headline_height, render_body_width,
      render_body_height, render_subheadline_width, render_subheadline_height,
      render_cta_button_dims ops _ _ _ _ _ _ |>.1,
      (render_cta_button_dims ops _ _ _ _ _ _).2]

theorem render_text_logo_dims (ops : Ops) (canvas : Img) (bn : String)
    (pos : ℤ × ℤ) (mh : Option ℤ) :
    (Compositor.render_text_logo ops canvas bn pos mh).width = canvas.width ∧
    (Compositor.render_text_logo ops canvas bn pos mh).height = canvas.height := by
  simp [Compositor.render_text_logo]

theorem place_logo_dims (ops : Ops) (canvas : Img) (ls : Option String)
    (pos : ℤ × ℤ) (mw mh : Option ℤ) (bn : String) :
    (Compositor.place_logo ops canvas ls pos mw mh bn).width = canvas.width ∧
    (Compositor.place_logo ops canvas ls pos mw mh bn).height = canvas.height := by
  simp only [Compositor.place_logo]
  split_ifs <;> simp [Compositor.render_text_logo]

theorem render_logos_dims (ops : Ops) (canvas : Img)
    (input : CompositionInput) (layout : LayoutSpec) :
    (Compositor.render_logos ops canvas input layout).width = canvas.width ∧
    (Compositor.render_logos ops canvas input layout).height = canvas.height := by
  rcases hstrat : input.brand_strategy <;>
    rcases hpb : input.product_brand with _ | pb <;>
    simp only [Compositor.render_logos, hstrat, hpb] <;>
    constructor <;>
    simp [place_logo_dims ops _ _ _ _ _ _ |>.1, (place_logo_dims ops _ _ _ _ _ _).2]

theorem load_background_dims (ops : Ops) (path : String) (w h : ℕ) :
    (Compositor.load_background ops path w h).width = w ∧
    (Compositor.load_background ops path w h).height = h := by
  simp only [Compositor.load_background]
  split_ifs with h1 h2 h3 <;>
    simp_all [Prod.ext_iff]

theorem save_image_dims (ops : Ops) (image : Img) (path : String)
    (format : OutputFormat) :
    (Compositor.save_image ops image path format).1.width = image.width ∧
    (Compositor.save_image ops image path format).1.height = image.height := by
  simp only [Compositor.save_image]
  split_ifs <;> simp [Img.new]

theorem stage_dims (ops : Ops) (input : CompositionInput) :
    (Compositor.stage_background ops input).width = input.channel.dimensions.width ∧
    (Compositor.stage_background ops input).height = input.channel.dimensions.height ∧
    (Compositor.stage_product ops input).width = input.channel.dimensions.width ∧
    (Compositor.stage_product ops input).height = input.channel.dimensions.height ∧
    (Compositor.stage_text ops input).width = input.channel.dimensions.width ∧
    (Compositor.stage_text ops input).height = input.channel.dimensions.height ∧
    (Compositor.stage_logos ops input).width = input.channel.dimensions.width ∧
    (Compositor.stage_logos ops input).height = input.channel.dimensions.height ∧
    (Compositor.stage_disclaimer ops input).width = input.channel.dimensions.width ∧
    (Compositor.stage_disclaimer ops input).height = input.channel.dimensions.height := by
  have h1 := load_background_dims ops input.background_path
    input.channel.dimensions.width input.channel.dimensions.height
  have h2w := place_product_width ops (Compositor.stage_background ops input)
    input.product_image_source input.concept.product_placement
    (get_layout_spec input.concept.layout_archetype).product_zone
    input.remove_product_bg
  have h2h := place_product_height ops (Compositor.stage_background ops input)
    input.product_image_source input.concept.product_placement
    (get_layout_spec input.concept.layout_archetype).product_zone
    input.remove_product_bg
  have h3 := render_all_text_dims ops (Compositor.stage_product ops input) input
    (get_layout_spec input.concept.layout_archetype)
  have h4 := render_logos_dims ops (Compositor.stage_text ops input) input
    (get_layout_spec input.concept.layout_archetype)
  have hb : (Compositor.stage_background ops input).width = input.channel.dimensions.width ∧
      (Compositor.stage_background ops input).height = input.channel.dimensions.height := h1
  have hp : (Compositor.stage_product ops input).width = input.channel.dimensions.width ∧
      (Compositor.stage_product ops input).height = input.channel.dimensions.height := by
    rw [Compositor.stage_product] at *
    exact ⟨h2w.trans hb.1, h2h.trans hb.2⟩
  have ht : (Compositor.stage_text ops input).width = input.channel.dimensions.width ∧
      (Compositor.stage_text ops input).height = input.channel.dimensions.height := by
    rw [Compositor.stage_text]
    exact ⟨h3.1.trans hp.1, h3.2.trans hp.2⟩
  have hl : (Compositor.stage_logos ops input).width = input.channel.dimensions.width ∧
      (Compositor.stage_logos ops input).height = input.channel.dimensions.height := by
    rw [Compositor.stage_logos]
    exact ⟨h4.1.trans ht.1, h4.2.trans ht.2⟩
  have hd : (Compositor.stage_disclaimer ops input).width = input.channel.dimensions.width ∧
      (Compositor.stage_disclaimer ops input).height = input.channel.dimensions.height := by
    rw [Compositor.stage_disclaimer]
    rcases hleg : input.ad_copy.legal_disclaimer with _ | d
    · exact hl
    · dsimp only
      split_ifs
      · have := render_disclaimer_dims ops (Compositor.stage_logos ops input) d none "#999999" 12
        exact ⟨this.1.trans hl.1, this.2.trans hl.2⟩
      · exact hl
  exact ⟨hb.1, hb.2, hp.1, hp.2, ht.1, ht.2, hl.1, hl.2, hd.1, hd.2⟩

/-!
## C2 — exact canvas dimensions through every stage
-/

/-- C2: for every input and environment, the canvas has exactly the
requested channel dimensions after every pipeline stage (background
load/resize, product placement, text rendering, logos, disclaimer,
export), and the returned `ImageAsset` carries exactly those
dimensions. -/
theorem C2_exact_dimensions (ops : Ops) (input : CompositionInput) :
    ((Compositor.stage_background ops input).width = input.channel.dimensions.width ∧
      (Compositor.stage_background ops input).height = input.channel.dimensions.height) ∧
    ((Compositor.stage_product ops input).width = input.channel.dimensions.width ∧
      (Compositor.stage_product ops input).height = input.channel.dimensions.height) ∧
    ((Compositor.stage_text ops input).width = input.channel.dimensions.width ∧
      (Compositor.stage_text ops input).height = input.channel.dimensions.height) ∧
    ((Compositor.stage_logos ops input).width = input.channel.dimensions.width ∧
      (Compositor.stage_logos ops input).height = input.channel.dimensions.height) ∧
    ((Compositor.stage_disclaimer ops input).width = input.channel.dimensions.width ∧
      (Compositor.stage_disclaimer ops input).height = input.channel.dimensions.height) ∧
    ((Compositor.stage_saved ops input).width = input.channel.dimensions.width ∧
      (Compositor.stage_saved ops input).height = input.channel.dimensions.height) ∧
    ((Compositor.compose ops input).width = input.channel.dimensions.width ∧
      (Compositor.compose ops input).height = input.channel.dimensions.height) := by
  obtain ⟨h1, h2, h3, h4, h5, h6, h7, h8, h9, h10⟩ := stage_dims ops input
  have hsave := save_image_dims ops (Compositor.stage_disclaimer ops input)
    input.output_path input.output_format
  refine ⟨⟨h1, h2⟩, ⟨h3, h4⟩, ⟨h5, h6⟩, ⟨h7, h8⟩, ⟨h9, h10⟩, ?_, ?_, ?_⟩
  · exact ⟨hsave.1.trans h9, hsave.2.trans h10⟩
  · exact h9
  · exact h10

/-!
## C1 — determinism of `compose`
-/

/-- C1: `compose` is a pure function of its resolved inputs: with the
external world fixed (`ops` holds the already-fetched assets and the
deterministic kernels), byte-identical inputs produce identical
`ImageAsset`s and pixel-identical exported rasters. -/
theorem C1_compose_deterministic (ops : Ops) (input1 input2 : CompositionInput)
    (hsame : input1 = input2) :
    Compositor.compose ops input1 = Compositor.compose ops input2 ∧
    Compositor.stage_saved ops input1 = Compositor.stage_saved ops input2 := by
  subst hsame
  exact ⟨rfl, rfl⟩

/-- Closed instance of `C1_compose_deterministic` on the sample
input. -/
theorem C1_compose_deterministic_witness :
    Compositor.compose sampleOps sampleInput = Compositor.compose sampleOps sampleInput ∧
    Compositor.stage_saved sampleOps sampleInput =
      Compositor.stage_saved sampleOps sampleInput :=
  C1_compose_deterministic sampleOps sampleInput sampleInput rfl

end Sartor
